import Mathlib

/-!
# Verification of the mock-database generation engine (`generate_mock_db.py`)

This file gives a shallow embedding of the entity-graph generation engine of
`src/generate_mock_db.py` and proves/refutes the frozen claims about it.

Modelling conventions:
* Python's global `random` module is modelled as an explicit stream state
  (`Rng`): every primitive sampling operation consumes one value from a stream
  of naturals.  All invariant theorems are proved for *every* stream, which in
  particular covers the stream produced by the real Mersenne–Twister for any
  seed.  `random.seed(s)` is modelled by `seedRng s`, which selects a concrete
  stream determined by the seed.
* `random.random()` (a unit float, used in the source only in comparisons with
  constant thresholds) is modelled as a natural number of millionths in
  `[0, 10^6)`; the thresholds `0.03`, `0.2`, ... become `30000`, `200000`, ...
* `datetime.now(timezone.utc)` is modelled as an explicit parameter `now : Int`
  counting microseconds; the several `now_utc()` calls inside one run are
  modelled as returning the same instant.  `iso(dt)` (truncation to whole
  seconds followed by injective, order-preserving ISO rendering) is modelled by
  the truncated instant itself, and `date.isoformat()` by the day number.
* Machine-formatted identifiers `f"{p}_{n}"` are modelled by `mkId p n`, which
  renders `n` in decimal exactly as Python does.
-/

/-- Decimal digit character for `d < 10` (zero-based ASCII offset 48). -/
def digitChar (d : Nat) : Char := Char.ofNat (48 + d)

/-- Fuel-driven digit renderer; the fuel only bounds the recursion depth and
is irrelevant once it is at least `n` (see `natDigitsGo_congr`). -/
def natDigitsGo : Nat → Nat → List Char
  | 0, n => [digitChar n]
  | fuel + 1, n =>
    if n < 10 then [digitChar n]
    else natDigitsGo fuel (n / 10) ++ [digitChar (n % 10)]

theorem natDigitsGo_congr : ∀ (f1 f2 n : Nat), n ≤ f1 → n ≤ f2 →
    natDigitsGo f1 n = natDigitsGo f2 n := by
  intro f1
  induction f1 with
  | zero =>
    intro f2 n h1 _
    interval_cases n
    cases f2 <;> rfl
  | succ f ih =>
    intro f2 n h1 h2
    cases f2 with
    | zero =>
      interval_cases n
      rfl
    | succ f' =>
      show (if n < 10 then _ else _) = (if n < 10 then _ else _)
      by_cases h : n < 10
      · rw [if_pos h, if_pos h]
      · rw [if_neg h, if_neg h,
          ih f' (n / 10) (by omega) (by omega)]

/-- Most-significant-first decimal digits of a natural number, as Python's
`str(n)` produces them. -/
def natDigits (n : Nat) : List Char := natDigitsGo n n

theorem natDigits_eq (n : Nat) :
    natDigits n = if n < 10 then [digitChar n]
      else natDigits (n / 10) ++ [digitChar (n % 10)] := by
  unfold natDigits
  cases n with
  | zero => rfl
  | succ m =>
    show (if m + 1 < 10 then [digitChar (m + 1)]
        else natDigitsGo m ((m + 1) / 10) ++ [digitChar ((m + 1) % 10)]) = _
    by_cases h : m + 1 < 10
    · rw [if_pos h, if_pos h]
    · rw [if_neg h, if_neg h,
        natDigitsGo_congr m ((m + 1) / 10) ((m + 1) / 10) (by omega) (by omega)]

/-- Decimal rendering of a natural number as a string (Python's `str`). -/
def natRepr (n : Nat) : String := ⟨natDigits n⟩

/-- Value of a digit list read back in base 10. -/
def digitsVal (ds : List Char) : Nat :=
  ds.foldl (fun a c => 10 * a + (c.toNat - 48)) 0

theorem digitChar_toNat (d : Nat) (h : d < 10) : (digitChar d).toNat = 48 + d := by
  interval_cases d <;> decide

theorem digitsVal_append (xs ys : List Char) :
    digitsVal (xs ++ ys) = ys.foldl (fun a c => 10 * a + (c.toNat - 48)) (digitsVal xs) := by
  simp [digitsVal, List.foldl_append]

theorem digitsVal_natDigits (n : Nat) : digitsVal (natDigits n) = n := by
  induction n using Nat.strong_induction_on with
  | _ n ih =>
    rw [natDigits_eq]
    by_cases h : n < 10
    · simp [h, digitsVal, List.foldl, digitChar_toNat n h]
    · rw [if_neg h, digitsVal_append, ih (n / 10) (Nat.div_lt_self (by omega) (by omega))]
      simp [List.foldl, digitChar_toNat (n % 10) (Nat.mod_lt _ (by omega))]
      omega

theorem natDigits_inj {m n : Nat} (h : natDigits m = natDigits n) : m = n := by
  have := digitsVal_natDigits m
  rw [h, digitsVal_natDigits] at this
  omega

theorem digitChar_ne_underscore (d : Nat) (h : d < 10) : digitChar d ≠ '_' := by
  interval_cases d <;> decide

theorem underscore_not_mem_natDigits (n : Nat) : '_' ∉ natDigits n := by
  induction n using Nat.strong_induction_on with
  | _ n ih =>
    rw [natDigits_eq]
    by_cases h : n < 10
    · simp [h]
      exact fun hc => digitChar_ne_underscore n h hc.symm
    · rw [if_neg h]
      intro hmem
      rcases List.mem_append.mp hmem with h1 | h2
      · exact ih (n / 10) (Nat.div_lt_self (by omega) (by omega)) h1
      · simp at h2
        exact digitChar_ne_underscore (n % 10) (Nat.mod_lt _ (by omega)) h2.symm

/-- The identifier string `f"{p}_{n}"` produced by the identifier factory. -/
def mkId (p : String) (n : Nat) : String := p ++ "_" ++ natRepr n

/-- A prefix string with no underscore character (true of all prefixes used by
the generators). -/
def NoUnderscore (p : String) : Prop := '_' ∉ p.data

instance (p : String) : Decidable (NoUnderscore p) := by
  unfold NoUnderscore; infer_instance

theorem split_at_underscore {xs ys us vs : List Char}
    (hx : '_' ∉ xs) (hu : '_' ∉ us)
    (h : xs ++ '_' :: ys = us ++ '_' :: vs) : xs = us ∧ ys = vs := by
  induction xs generalizing us with
  | nil =>
    cases us with
    | nil => simpa using h
    | cons u us' =>
      simp at h
      exact absurd (h.1 ▸ List.mem_cons_self u us') hu
  | cons x xs' ih =>
    cases us with
    | nil =>
      simp at h
      exact absurd (h.1 ▸ List.mem_cons_self x xs') hx
    | cons u us' =>
      simp at h
      obtain ⟨hxu, hrest⟩ := h
      have := ih (fun hm => hx (List.mem_cons_of_mem _ hm))
        (fun hm => hu (List.mem_cons_of_mem _ hm)) hrest
      exact ⟨by simp [hxu, this.1], this.2⟩

theorem mkId_data (p : String) (n : Nat) :
    (mkId p n).data = p.data ++ '_' :: natDigits n := by
  simp [mkId, natRepr, String.data_append]

theorem mkId_inj {p q : String} {m n : Nat}
    (hp : NoUnderscore p) (hq : NoUnderscore q)
    (h : mkId p m = mkId q n) : p = q ∧ m = n := by
  have hd : (mkId p m).data = (mkId q n).data := by rw [h]
  rw [mkId_data, mkId_data] at hd
  have := split_at_underscore hp hq hd
  refine ⟨?_, natDigits_inj this.2⟩
  cases p; cases q; exact congrArg String.mk this.1

theorem mkId_ne {p q : String} (hp : NoUnderscore p) (hq : NoUnderscore q)
    (hpq : p ≠ q) (m n : Nat) : mkId p m ≠ mkId q n :=
  fun h => hpq (mkId_inj hp hq h).1

theorem mkId_injective (p : String) : Function.Injective (mkId p) := by
  intro m n h
  have hd : (mkId p m).data = (mkId p n).data := by rw [h]
  rw [mkId_data, mkId_data] at hd
  exact natDigits_inj (by simpa using List.append_cancel_left hd)

/-! ## The identifier factory (`class IdFactory`) -/

/-- `IdFactory`: per-prefix counters, all starting at 0 (Python: an initially
empty dict read with `.get(prefix, 0)`). -/
structure IdFactory where
  counters : String → Nat

/-- `IdFactory()` — fresh factory with all counters at zero. -/
def IdFactory.new : IdFactory := ⟨fun _ => 0⟩

/-- `IdFactory.next`: bump the counter for `p` and return `f"{p}_{n}"`. -/
def IdFactory.next (idf : IdFactory) (p : String) : String × IdFactory :=
  let n := idf.counters p + 1
  (mkId p n, ⟨fun q => if q = p then n else idf.counters q⟩)

/-! ## The random-stream model of Python's seeded `random` module -/

/-- Abstract random stream: an infinite supply of naturals plus a cursor.
Each primitive sampling operation consumes exactly one stream value. -/
structure Rng where
  stream : Nat → Nat
  idx : Nat

def Rng.draw (r : Rng) : Nat × Rng := (r.stream r.idx, ⟨r.stream, r.idx + 1⟩)

/-- `random.random()` modelled in millionths: a value in `[0, 10^6)`. -/
def Rng.random (r : Rng) : Nat × Rng :=
  let (d, r) := r.draw
  (d % 1000000, r)

/-- `random.randint(a, b)` (inclusive bounds, call sites satisfy `a ≤ b`). -/
def Rng.randint (r : Rng) (a b : Nat) : Nat × Rng :=
  let (d, r) := r.draw
  (a + d % (b + 1 - a), r)

/-- `int(random.uniform(a, b))` — an integer in `[a, b)`. -/
def Rng.uniformInt (r : Rng) (a b : Nat) : Nat × Rng :=
  let (d, r) := r.draw
  (a + d % (b - a), r)

/-- `random.choice(l)` for the nonempty lists the source applies it to;
`dflt` is returned only for `l = []` (where CPython would raise). -/
def Rng.chooseD (r : Rng) (l : List α) (dflt : α) : α × Rng :=
  let (d, r) := r.draw
  (l.getD (d % l.length) dflt, r)

/-- One Fisher–Yates step sequence for `random.shuffle`: indices run from
`len - 1` down to `1`, swapping with a sampled position `≤` the index. -/
def listSwap (l : List α) (i j : Nat) : List α :=
  match l.get? i, l.get? j with
  | some a, some b => (l.set i b).set j a
  | _, _ => l

def shuffleGo (l : List α) (rng : Rng) : Nat → List α × Rng
  | 0 => (l, rng)
  | i + 1 =>
    let (d, rng) := rng.draw
    let j := d % (i + 2)
    shuffleGo (listSwap l (i + 1) j) rng i

/-- `random.shuffle(l)` (Fisher–Yates from the top index down). -/
def Rng.shuffle (r : Rng) (l : List α) : List α × Rng :=
  shuffleGo l r (l.length - 1)

/-- `random.sample(l, k)` for string lists: `k` distinct positions drawn
without replacement. -/
def sampleGo (rng : Rng) (l : List String) : Nat → List String × Rng
  | 0 => ([], rng)
  | k + 1 =>
    match l with
    | [] => ([], rng)
    | x :: xs =>
      let (d, rng) := rng.draw
      let i := d % (x :: xs).length
      let (rest, rng) := sampleGo rng ((x :: xs).eraseIdx i) k
      ((x :: xs).getD i x :: rest, rng)

def Rng.sample (r : Rng) (l : List String) (k : Nat) : List String × Rng :=
  sampleGo r l k

/-- Concrete stand-in for the Mersenne–Twister stream selected by
`random.seed(seed)`: any function of the seed works for the determinism
results, and the invariant results hold for every stream whatsoever. -/
def mtStream (seed : Nat) : Nat → Nat :=
  fun i => ((seed + i) * 1103515245 + 12345) % 2147483648

def seedRng (seed : Nat) : Rng := ⟨mtStream seed, 0⟩

/-! ## Loop combinators

Python `for`-loops that append to a result list are embedded with these two
combinators: `iterGenIdx` is a counted loop carrying the loop index and a
state, `fanOut` iterates a child-emitting body over a parent list. -/

def iterGenIdx (g : Nat → σ → α × σ) : Nat → Nat → σ → List α × σ
  | _, 0, s => ([], s)
  | j, k + 1, s =>
    let r := g j s
    let rest := iterGenIdx g (j + 1) k r.2
    (r.1 :: rest.1, rest.2)

def fanOut (f : β → σ → List α × σ) : List β → σ → List α × σ
  | [], s => ([], s)
  | b :: bs, s =>
    let r := f b s
    let rest := fanOut f bs r.2
    (r.1 ++ rest.1, rest.2)

theorem mem_iterGenIdx (P : α → Prop) {g : Nat → σ → α × σ}
    (hg : ∀ i s, P (g i s).1) :
    ∀ k j s, ∀ a ∈ (iterGenIdx g j k s).1, P a := by
  intro k
  induction k with
  | zero => intro j s a ha; simp [iterGenIdx] at ha
  | succ k ih =>
    intro j s a ha
    simp only [iterGenIdx] at ha
    rcases List.mem_cons.mp ha with h | h
    · exact h ▸ hg j s
    · exact ih (j + 1) (g j s).2 a h

theorem mem_fanOut (P : α → Prop) {f : β → σ → List α × σ} {bs : List β}
    (hf : ∀ b ∈ bs, ∀ s, ∀ a ∈ (f b s).1, P a) :
    ∀ s, ∀ a ∈ (fanOut f bs s).1, P a := by
  induction bs with
  | nil => intro s a ha; simp [fanOut] at ha
  | cons b bs ih =>
    intro s a ha
    simp only [fanOut] at ha
    rcases List.mem_append.mp ha with h | h
    · exact hf b (List.mem_cons_self _ _) s a h
    · exact ih (fun b' hb' => hf b' (List.mem_cons_of_mem _ hb')) (f b s).2 a h

theorem length_iterGenIdx (g : Nat → σ → α × σ) :
    ∀ k j s, (iterGenIdx g j k s).1.length = k := by
  intro k
  induction k with
  | zero => intro j s; simp [iterGenIdx]
  | succ k ih => intro j s; simp [iterGenIdx, ih]

theorem get_iterGenIdx (g : Nat → σ → α × σ) :
    ∀ k j s i, (h : i < (iterGenIdx g j k s).1.length) →
      ∃ s', (iterGenIdx g j k s).1.get ⟨i, h⟩ = (g (j + i) s').1 := by
  intro k
  induction k with
  | zero => intro j s i h; simp [iterGenIdx] at h
  | succ k ih =>
    intro j s i h
    cases i with
    | zero => exact ⟨s, by simp [iterGenIdx]⟩
    | succ i =>
      have h'' := h
      rw [length_iterGenIdx] at h''
      have h' : i < (iterGenIdx g (j + 1) k (g j s).2).1.length := by
        rw [length_iterGenIdx]; omega
      obtain ⟨s', hs'⟩ := ih (j + 1) (g j s).2 i h'
      refine ⟨s', ?_⟩
      simp only [iterGenIdx, List.get_cons_succ]
      have e : j + (i + 1) = j + 1 + i := by omega
      rw [e]
      exact hs'

/-! ## Static catalog tables -/

def FIRST_NAMES : List String :=
  ["Alex", "Jordan", "Taylor", "Casey", "Riley", "Morgan", "Sam", "Jamie", "Cameron", "Avery",
   "Drew", "Quinn", "Reese", "Rowan", "Skyler", "Parker", "Elliot", "Hayden", "Emerson", "Blake",
   "Logan", "Harper", "Finley", "Sage", "Remy", "Dakota", "Tatum", "Emery", "Kendall", "Robin"]

def ORG_NAMES : List String :=
  ["Acme Inc", "Globex", "Initech", "Umbrella", "Hooli", "Stark Industries", "Wayne Enterprises",
   "Wonka Labs", "Aperture Science", "Cyberdyne Systems", "Tyrell Corp", "Vehement Capital",
   "Gekko & Co", "Massive Dynamic", "Soylent Works", "Monarch Solutions", "Octan Energy"]

def PROJECT_NAMES : List String :=
  ["Checkout", "Billing", "Growth", "Data Platform", "Observability", "Mobile App", "Web Revamp",
   "Fraud Engine", "ML Platform", "Realtime Chat", "Reporting", "Docs", "API Gateway", "Auth"]

def METRIC_CATALOG : List (String × Nat × String) :=
  [("http_latency_ms", 30, "active"),
   ("error_rate_pct", 60, "active"),
   ("requests_per_minute", 14, "active"),
   ("cpu_usage_pct", 7, "active"),
   ("memory_usage_mb", 30, "active"),
   ("db_conn_pool_busy_pct", 30, "active")]

def WIDGET_TYPES : List String := ["timeseries", "stat", "table", "bar"]

def SCOPES : List String := ["viewer", "dashboard:write", "alert:write", "metric:write", "project:admin"]

def PLANS : List String := ["free", "pro", "enterprise"]

def ALERT_NAMES : List String := ["High latency", "Error rate spike", "High CPU", "High memory", "RPM drop"]

def EVAL_SUITE_NAMES : List String := ["Bot Regression", "Smoke Suite", "Latency Suite", "Alert Rules QA"]

/-! ## `slugify`

The Python function lowercases, deletes the listed company-suffix tokens (a
regex alternation, each occurrence requiring a word boundary after it), then
replaces non-alphanumeric runs by spaces, collapses and strips them, and
finally deletes the remaining spaces — the last three steps amount to keeping
exactly the alphanumeric characters. -/

def isWordChar (c : Char) : Bool := c.isAlphanum || c == '_'

/-- ASCII lowercasing of one character, as `str.lower()` acts on the
catalogs' ASCII-only names. -/
def lowerChar (c : Char) : Char :=
  if 65 ≤ c.toNat ∧ c.toNat ≤ 90 then Char.ofNat (c.toNat + 32) else c

/-- `str.lower()` on the ASCII catalog strings. -/
def strToLower (s : String) : String := ⟨s.data.map lowerChar⟩

/-- The suffix alternation of `slugify`, in the regex's order.  The boolean
records whether the token ends in a word character, which flips the meaning of
the trailing word-boundary assertion. -/
def SUFFIX_TOKENS : List (String × Bool) :=
  [(" inc", true), (" llc", true), (" ltd", true), (" gmbh", true),
   (" s.a.", false), (" s.a", true), (" corp", true), (" co", true),
   (" company", true), (" plc", true)]

def tokMatch (cs : List Char) (tok : List Char) (endsWord : Bool) : Bool :=
  cs.take tok.length == tok &&
    (match cs.drop tok.length with
     | [] => endsWord
     | c :: _ => if endsWord then !isWordChar c else isWordChar c)

def tokenAt (cs : List Char) : Option Nat :=
  SUFFIX_TOKENS.findSome? fun te =>
    if tokMatch cs te.1.data te.2 then some te.1.data.length else none

def stripTokensGo : Nat → List Char → List Char
  | 0, _ => []
  | _ + 1, [] => []
  | fuel + 1, c :: rest =>
    match tokenAt (c :: rest) with
    | some n => stripTokensGo fuel ((c :: rest).drop n)
    | none => c :: stripTokensGo fuel rest

def slugify (name : String) : String :=
  let low := (strToLower name).data
  let stripped := stripTokensGo low.length low
  ⟨stripped.filter fun c => c.isAlphanum⟩

/-! ## Temporal model -/

/-- `iso(dt)` — truncation of a microsecond instant to whole seconds
(`dt.replace(microsecond=0)`); the subsequent ISO-8601 rendering is injective
and order-preserving, so the truncated instant represents it. -/
def iso (t : Int) : Int := t - t % 1000000

/-- `dt.date()` — the calendar day of a microsecond instant, as a day number
(floor division, as for Python's positively-based datetimes). -/
def dateOf (t : Int) : Int := Int.fdiv t 86400000000

/-! ## Entity record types (one structure per generated dict shape) -/

structure Org where
  id : String
  name : String
  plan : String
  active : Bool
deriving DecidableEq

structure User where
  id : String
  org_id : String
  email : String
  name : String
  role : String
  active : Bool
deriving DecidableEq

structure Project where
  id : String
  org_id : String
  name : String
  visibility : String
  active : Bool
deriving DecidableEq

structure Dashboard where
  id : String
  project_id : String
  name : String
  owner_user_id : Option String
  active : Bool
deriving DecidableEq

structure Metric where
  id : String
  project_id : String
  name : String
  retention_days : Nat
  status : String
deriving DecidableEq

structure MetricSample where
  metric_id : String
  date : Int
  count : Nat
deriving DecidableEq

structure WidgetFilters where
  env : String
  region : List String
deriving DecidableEq

structure Widget where
  id : String
  dashboard_id : String
  type : String
  metric_id : Option String
  title : String
  filters : WidgetFilters
  visible : Bool
  archived : Bool
deriving DecidableEq

structure Alert where
  id : String
  project_id : String
  name : String
  metric_id : Option String
  threshold : Nat
  window : String
  enabled : Bool
  last_fired_at : Option Int
deriving DecidableEq

structure Incident where
  id : String
  alert_id : String
  status : String
  opened_at : Int
  resolved_at : Option Int
deriving DecidableEq

structure EvalSuite where
  id : String
  project_id : String
  name : String
  status : String
deriving DecidableEq

structure EvalRun where
  id : String
  suite_id : String
  status : String
  created_at : Int
deriving DecidableEq

structure Permission where
  user_id : String
  project_id : String
  scopes : List String
deriving DecidableEq

structure FeatureFlag where
  key : String
  enabled_for_orgs : List String
  enabled : Bool
deriving DecidableEq

/-- Audit-log record; the Python dict key `"at"` is a Lean keyword, so the
field is called `at_`. -/
structure AuditLog where
  id : String
  org_id : Option String
  actor_user_id : Option String
  action : String
  target_id : Option String
  at_ : Int
deriving DecidableEq

/-- The cardinality parameters of `build_mock_data` (Python `int`s). -/
structure Config where
  orgs_count : Int
  users_per_org : Int
  projects_per_org : Int
  dashboards_per_project : Int
  widgets_per_dashboard : Int
  metrics_per_project : Int
  samples_per_metric : Int
  alerts_per_project : Int
  incidents_per_alert : Int
  suites_per_project : Int
  runs_per_suite : Int
  permissions_per_user : Int
  feature_flags_count : Int
  audit_logs_count : Int
deriving DecidableEq

/-- The named collection-of-collections returned by `build_mock_data`. -/
structure Data where
  orgs : List Org
  users : List User
  projects : List Project
  permissions : List Permission
  feature_flags : List FeatureFlag
  dashboards : List Dashboard
  widgets : List Widget
  metrics : List Metric
  metric_samples : List MetricSample
  alerts : List Alert
  incidents : List Incident
  eval_suites : List EvalSuite
  eval_runs : List EvalRun
  audit_logs : List AuditLog
deriving DecidableEq

/-! ## Grouping dictionaries

The source builds dicts of lists with `setdefault(key, []).append(...)` while
scanning a collection in order, then reads them with `.get(key, [])`; the list
obtained for a key is exactly the in-order filter of the scanned collection by
that key. -/

def usersByOrg (users : List User) (oid : String) : List User :=
  users.filter fun u => u.org_id == oid

def projectsByOrg (projects : List Project) (oid : String) : List Project :=
  projects.filter fun p => p.org_id == oid

def metricsByProject (metrics : List Metric) (pid : String) : List Metric :=
  metrics.filter fun m => m.project_id == pid

/-! ## Entity generators -/

def genOrgStep (names : List String) (i : Nat) (s : IdFactory × Rng) : Org × (IdFactory × Rng) :=
  let (idf, rng) := s
  let (oid, idf) := idf.next "org"
  let name := if i < names.length then names.getD (i % names.length) "" else "Org " ++ natRepr (i + 1)
  let (plan, rng) := rng.chooseD PLANS ""
  let (act, rng) := rng.random
  ({ id := oid, name := name, plan := plan, active := act > 30000 }, idf, rng)

def gen_orgs (idf : IdFactory) (rng : Rng) (n : Int) : List Org × IdFactory × Rng :=
  let (names, rng) := rng.shuffle ORG_NAMES
  iterGenIdx (genOrgStep names) 0 n.toNat (idf, rng)

def genUserStep (pool : List String) (oid domain : String) (u : Nat)
    (s : IdFactory × Rng × Nat) : User × (IdFactory × Rng × Nat) :=
  let (idf, rng, nameIdx) := s
  let (uid, idf) := idf.next "usr"
  let first := pool.getD (nameIdx % pool.length) ""
  let nameIdx := nameIdx + 1
  let emailLocal := strToLower first ++ natRepr nameIdx
  let (role, rng) :=
    if u == 0 then ("admin", rng)
    else
      let (r, rng) := rng.random
      (if r > 200000 then "member" else "viewer", rng)
  let (act, rng) := rng.random
  ({ id := uid, org_id := oid, email := emailLocal ++ "@" ++ domain, name := first,
     role := role, active := act > 20000 }, idf, rng, nameIdx)

def gen_users (idf : IdFactory) (rng : Rng) (orgs : List Org) (users_per_org : Int) :
    List User × IdFactory × Rng :=
  let (pool, rng) := rng.shuffle FIRST_NAMES
  let r := fanOut
    (fun org s => iterGenIdx (genUserStep pool org.id (slugify org.name ++ ".com")) 0
      users_per_org.toNat s)
    orgs (idf, rng, 0)
  (r.1, r.2.1, r.2.2.1)

def genProjectStep (oid : String) (_i : Nat) (s : IdFactory × Rng) : Project × (IdFactory × Rng) :=
  let (idf, rng) := s
  let (pid, idf) := idf.next "prj"
  let (nm, rng) := rng.chooseD PROJECT_NAMES ""
  let (vis, rng) := rng.random
  let (act, rng) := rng.random
  ({ id := pid, org_id := oid, name := nm,
     visibility := if vis > 250000 then "private" else "public", active := act > 50000 }, idf, rng)

def gen_projects (idf : IdFactory) (rng : Rng) (orgs : List Org) (projects_per_org : Int) :
    List Project × IdFactory × Rng :=
  fanOut (fun org s => iterGenIdx (genProjectStep org.id) 0 projects_per_org.toNat s)
    orgs (idf, rng)

def genDashStep (orgUsers : List User) (pid : String) (_i : Nat) (s : IdFactory × Rng) :
    Dashboard × (IdFactory × Rng) :=
  let (idf, rng) := s
  let (owner, rng) :=
    match orgUsers with
    | [] => (none, rng)
    | u :: us =>
      let (o, rng) := rng.chooseD (u :: us) u
      (some o, rng)
  let (did, idf) := idf.next "db"
  let (nm, rng) := rng.chooseD ["Ops Overview", "Product KPIs", "Oncall", "SRE Board", "Release Readiness"] ""
  let (act, rng) := rng.random
  ({ id := did, project_id := pid, name := nm, owner_user_id := owner.map User.id,
     active := act > 50000 }, idf, rng)

def gen_dashboards (idf : IdFactory) (rng : Rng) (projects : List Project) (users : List User)
    (dashboards_per_project : Int) : List Dashboard × IdFactory × Rng :=
  fanOut (fun prj s => iterGenIdx (genDashStep (usersByOrg users prj.org_id) prj.id) 0
      dashboards_per_project.toNat s)
    projects (idf, rng)

/-- The bounded-retry loop avoiding duplicate metric names within a project:
`while name in used and tries < 10: re-pick`. -/
def metricRetry (used : List String) (cur : String × Nat × String) (rng : Rng) :
    Nat → (String × Nat × String) × Rng
  | 0 => (cur, rng)
  | fuel + 1 =>
    if cur.1 ∈ used then
      let (nxt, rng) := rng.chooseD METRIC_CATALOG ("", 0, "")
      metricRetry used nxt rng fuel
    else (cur, rng)

def genMetricStep (pid : String) (_i : Nat) (s : IdFactory × Rng × List String) :
    Metric × (IdFactory × Rng × List String) :=
  let (idf, rng, used) := s
  let (mid, idf) := idf.next "m"
  let (cur, rng) := rng.chooseD METRIC_CATALOG ("", 0, "")
  let (chosen, rng) := metricRetry used cur rng 10
  let used := chosen.1 :: used
  ({ id := mid, project_id := pid, name := chosen.1, retention_days := chosen.2.1,
     status := chosen.2.2 }, idf, rng, used)

/-- The metrics of one project: the `used` name set starts empty per project
and is dropped when the project's loop ends. -/
def genMetricsForProject (k : Nat) (prj : Project) (s : IdFactory × Rng) :
    List Metric × (IdFactory × Rng) :=
  let inner := iterGenIdx (genMetricStep prj.id) 0 k (s.1, s.2, ([] : List String))
  (inner.1, inner.2.1, inner.2.2.1)

def gen_metrics (idf : IdFactory) (rng : Rng) (projects : List Project)
    (metrics_per_project : Int) : List Metric × IdFactory × Rng :=
  fanOut (genMetricsForProject metrics_per_project.toNat) projects (idf, rng)

def genSampleStep (mid : String) (base : Int) (n : Nat) (i : Nat) (rng : Rng) :
    MetricSample × Rng :=
  let day := base - ((n : Int) - 1 - (i : Int))
  let (cnt, rng) := rng.uniformInt 80 200000
  ({ metric_id := mid, date := day, count := cnt }, rng)

def gen_metric_samples (metrics : List Metric) (samples_per_metric : Int) (now : Int)
    (rng : Rng) : List MetricSample × Rng :=
  let base := dateOf now
  fanOut (fun m s => iterGenIdx (genSampleStep m.id base samples_per_metric.toNat) 0
      samples_per_metric.toNat s)
    metrics rng

def genWidgetStep (prjMetrics : List Metric) (dbId : String) (_i : Nat) (s : IdFactory × Rng) :
    Widget × (IdFactory × Rng) :=
  let (idf, rng) := s
  let (mOpt, rng) :=
    match prjMetrics with
    | [] => (none, rng)
    | m :: ms =>
      let (x, rng) := rng.chooseD (m :: ms) m
      (some x, rng)
  let (wid, idf) := idf.next "w"
  let (ty, rng) := rng.chooseD WIDGET_TYPES ""
  let (ti, rng) := rng.chooseD ["Latency P95", "Error rate", "Traffic", "CPU usage", "Memory usage", "DB pool busy"] ""
  let (env, rng) := rng.chooseD ["prod", "staging", "dev"] ""
  let (reg, rng) := rng.chooseD ["us-east", "us-west", "eu-west", "ap-south"] ""
  let (vis, rng) := rng.random
  let (arch, rng) := rng.random
  ({ id := wid, dashboard_id := dbId, type := ty, metric_id := mOpt.map Metric.id, title := ti,
     filters := { env := env, region := [reg] }, visible := vis > 50000,
     archived := arch < 50000 }, idf, rng)

def gen_widgets (idf : IdFactory) (rng : Rng) (dashboards : List Dashboard)
    (metrics : List Metric) (widgets_per_dashboard : Int) : List Widget × IdFactory × Rng :=
  fanOut (fun db s => iterGenIdx (genWidgetStep (metricsByProject metrics db.project_id) db.id) 0
      widgets_per_dashboard.toNat s)
    dashboards (idf, rng)

def genAlertStep (prjMetrics : List Metric) (pid : String) (now : Int) (_i : Nat)
    (s : IdFactory × Rng) : Alert × (IdFactory × Rng) :=
  let (idf, rng) := s
  let (mOpt, rng) :=
    match prjMetrics with
    | [] => (none, rng)
    | m :: ms =>
      let (x, rng) := rng.chooseD (m :: ms) m
      (some x, rng)
  let (dys, rng) := rng.randint 0 7
  let (mins, rng) := rng.randint 0 1440
  let lastFire := now - ((dys : Int) * 86400000000 + (mins : Int) * 60000000)
  let (aid, idf) := idf.next "al"
  let (nm, rng) := rng.chooseD ALERT_NAMES ""
  let (thr, rng) := rng.uniformInt 50 1000
  let (win, rng) := rng.chooseD ["1m", "5m", "15m", "1h"] ""
  let (en, rng) := rng.random
  let (lf, rng) := rng.random
  ({ id := aid, project_id := pid, name := nm, metric_id := mOpt.map Metric.id, threshold := thr,
     window := win, enabled := en > 100000,
     last_fired_at := if lf > 400000 then some (iso lastFire) else none }, idf, rng)

def gen_alerts (idf : IdFactory) (rng : Rng) (projects : List Project) (metrics : List Metric)
    (now : Int) (alerts_per_project : Int) : List Alert × IdFactory × Rng :=
  fanOut (fun prj s => iterGenIdx (genAlertStep (metricsByProject metrics prj.id) prj.id now) 0
      alerts_per_project.toNat s)
    projects (idf, rng)

def genIncidentStep (alertId : String) (now : Int) (_i : Nat) (s : IdFactory × Rng) :
    Incident × (IdFactory × Rng) :=
  let (idf, rng) := s
  let (dys, rng) := rng.randint 0 10
  let (mins, rng) := rng.randint 10 10000
  let opened := now - ((dys : Int) * 86400000000 + (mins : Int) * 60000000)
  let (coin, rng) := rng.random
  let (resolved, status, rng) :=
    if coin > 500000 then
      let (rm, rng) := rng.randint 5 180
      (some (opened + (rm : Int) * 60000000), "resolved", rng)
    else (none, "open", rng)
  let (iid, idf) := idf.next "inc"
  ({ id := iid, alert_id := alertId, status := status, opened_at := iso opened,
     resolved_at := resolved.map iso }, idf, rng)

def gen_incidents (idf : IdFactory) (rng : Rng) (alerts : List Alert) (now : Int)
    (incidents_per_alert : Int) : List Incident × IdFactory × Rng :=
  fanOut (fun al s => iterGenIdx (genIncidentStep al.id now) 0 incidents_per_alert.toNat s)
    alerts (idf, rng)

def genSuiteStep (pid : String) (_i : Nat) (s : IdFactory × Rng) :
    EvalSuite × (IdFactory × Rng) :=
  let (idf, rng) := s
  let (sid, idf) := idf.next "es"
  let (nm, rng) := rng.chooseD EVAL_SUITE_NAMES ""
  let (st, rng) := rng.random
  ({ id := sid, project_id := pid, name := nm,
     status := if st > 100000 then "active" else "disabled" }, idf, rng)

def gen_eval_suites (idf : IdFactory) (rng : Rng) (projects : List Project)
    (suites_per_project : Int) : List EvalSuite × IdFactory × Rng :=
  fanOut (fun prj s => iterGenIdx (genSuiteStep prj.id) 0 suites_per_project.toNat s)
    projects (idf, rng)

def genRunStep (suiteId : String) (now : Int) (_i : Nat) (s : IdFactory × Rng) :
    EvalRun × (IdFactory × Rng) :=
  let (idf, rng) := s
  let (dys, rng) := rng.randint 0 5
  let (mins, rng) := rng.randint 0 720
  let created := now - ((dys : Int) * 86400000000 + (mins : Int) * 60000000)
  let (st, rng) := rng.chooseD ["queued", "running", "passed", "failed"] ""
  let (rid, idf) := idf.next "er"
  ({ id := rid, suite_id := suiteId, status := st, created_at := iso created }, idf, rng)

def gen_eval_runs (idf : IdFactory) (rng : Rng) (suites : List EvalSuite) (now : Int)
    (runs_per_suite : Int) : List EvalRun × IdFactory × Rng :=
  fanOut (fun su s => iterGenIdx (genRunStep su.id now) 0 runs_per_suite.toNat s)
    suites (idf, rng)

/-- The bounded-retry loop avoiding duplicate project bindings for one user:
`while prj["id"] in chosen and tries < 10: re-pick`. -/
def permRetry (avail : List Project) (chosen : List String) (prj : Project) (rng : Rng) :
    Nat → Project × Rng
  | 0 => (prj, rng)
  | fuel + 1 =>
    if prj.id ∈ chosen then
      let (p', rng) := rng.chooseD avail prj
      permRetry avail chosen p' rng fuel
    else (prj, rng)

/-- One permission binding for a user.  The `avail = []` branch is unreachable:
when the user's org has no projects the binding loop runs zero times (CPython's
`random.choice([])` would raise). -/
def genPermStep (uid : String) (avail : List Project) (_i : Nat) (s : List String × Rng) :
    Permission × (List String × Rng) :=
  let (chosen, rng) := s
  let (prj0, rng) :=
    match avail with
    | [] => ({ id := "", org_id := "", name := "", visibility := "", active := false }, rng)
    | p :: ps => rng.chooseD (p :: ps) p
  let (prj, rng) := permRetry avail chosen prj0 rng 10
  let chosen := prj.id :: chosen
  let (k, rng) := rng.randint 1 3
  let (scopes, rng) := rng.sample SCOPES k
  ({ user_id := uid, project_id := prj.id, scopes := scopes }, chosen, rng)

/-- The permission bindings of one user: `chosen` starts empty per user; the
loop runs `min(permissions_per_user, len(available_projects))` times. -/
def genPermsForUser (projects : List Project) (ppu : Int) (u : User) (rng : Rng) :
    List Permission × Rng :=
  let avail := projectsByOrg projects u.org_id
  let r := iterGenIdx (genPermStep u.id avail) 0 (min ppu (avail.length : Int)).toNat ([], rng)
  (r.1, r.2.2)

def gen_permissions (projects : List Project) (users : List User)
    (permissions_per_user : Int) (rng : Rng) : List Permission × Rng :=
  fanOut (genPermsForUser projects permissions_per_user) users rng

def FLAG_KEYS : List String :=
  ["widgets.grid_v2", "dashboards.public_share", "alerts.auto_mute",
   "metrics.rollup_v3", "projects.bulk_edit", "rbac.granular",
   "eval.live_compare", "ui.dark_mode", "api.tokens_v2"]

/-- `[o["id"] for o in orgs if random.random() > 0.6]` — one draw per org. -/
def flagOrgs : List Org → Rng → List String × Rng
  | [], rng => ([], rng)
  | o :: os, rng =>
    let (r, rng) := rng.random
    let (rest, rng) := flagOrgs os rng
    (if r > 600000 then o.id :: rest else rest, rng)

def genFlagStep (orgs : List Org) (i : Nat) (rng : Rng) : FeatureFlag × Rng :=
  let key := if i < FLAG_KEYS.length then FLAG_KEYS.getD (i % FLAG_KEYS.length) ""
    else "custom.flag_" ++ natRepr (i + 1)
  let (efo, rng) := flagOrgs orgs rng
  let (en, rng) := rng.random
  ({ key := key, enabled_for_orgs := efo, enabled := en > 400000 }, rng)

def gen_feature_flags (orgs : List Org) (feature_flags_count : Int) (rng : Rng) :
    List FeatureFlag × Rng :=
  iterGenIdx (genFlagStep orgs) 0 feature_flags_count.toNat rng

def AUDIT_ACTIONS : List String :=
  ["project.created", "project.archived",
   "dashboard.created", "dashboard.renamed",
   "widget.created", "widget.updated", "widget.deleted",
   "alert.created", "alert.updated", "alert.triggered"]

def auditPool (projects : List Project) (dashboards : List Dashboard) (widgets : List Widget)
    (alerts : List Alert) : List (String × String) :=
  projects.map (fun p => ("project", p.id)) ++ dashboards.map (fun d => ("dashboard", d.id)) ++
    widgets.map (fun w => ("widget", w.id)) ++ alerts.map (fun a => ("alert", a.id))

def genAuditStep (orgs : List Org) (users : List User) (pool : List (String × String))
    (now : Int) (_i : Nat) (s : IdFactory × Rng) : AuditLog × (IdFactory × Rng) :=
  let (idf, rng) := s
  let (actorOpt, rng) :=
    match users with
    | [] => (none, rng)
    | u :: us =>
      let (x, rng) := rng.chooseD (u :: us) u
      (some x, rng)
  let (targetOpt, rng) :=
    match pool with
    | [] => (none, rng)
    | t :: ts =>
      let (x, rng) := rng.chooseD (t :: ts) t
      (some x, rng)
  let (act, rng) := rng.chooseD AUDIT_ACTIONS ""
  let (mins, rng) := rng.randint 0 10000
  let atv := now - (mins : Int) * 60000000
  let (lid, idf) := idf.next "aud"
  ({ id := lid,
     org_id :=
       match actorOpt with
       | some a => some a.org_id
       | none => (orgs.head?).map Org.id,
     actor_user_id := actorOpt.map User.id,
     action := act,
     target_id := targetOpt.map Prod.snd,
     at_ := iso atv }, idf, rng)

def gen_audit_logs (idf : IdFactory) (rng : Rng) (orgs : List Org) (users : List User)
    (projects : List Project) (dashboards : List Dashboard) (widgets : List Widget)
    (alerts : List Alert) (now : Int) (audit_logs_count : Int) :
    List AuditLog × IdFactory × Rng :=
  iterGenIdx (genAuditStep orgs users (auditPool projects dashboards widgets alerts) now) 0
    audit_logs_count.toNat (idf, rng)

/-! ## The graph assembler (`build_mock_data`) -/

/-- `build_mock_data` with the random stream passed explicitly (the source's
single `random.seed(seed)` fixes the stream once; all invariants below are
proved for every stream). -/
def build_mock_data_rng (rng0 : Rng) (cfg : Config) (now : Int) : Data :=
  let r1 := gen_orgs IdFactory.new rng0 cfg.orgs_count
  let orgs := r1.1
  let r2 := gen_users r1.2.1 r1.2.2 orgs cfg.users_per_org
  let users := r2.1
  let r3 := gen_projects r2.2.1 r2.2.2 orgs cfg.projects_per_org
  let projects := r3.1
  let r4 := gen_dashboards r3.2.1 r3.2.2 projects users cfg.dashboards_per_project
  let dashboards := r4.1
  let r5 := gen_metrics r4.2.1 r4.2.2 projects cfg.metrics_per_project
  let metrics := r5.1
  let r6 := gen_metric_samples metrics cfg.samples_per_metric now r5.2.2
  let metric_samples := r6.1
  let r7 := gen_widgets r5.2.1 r6.2 dashboards metrics cfg.widgets_per_dashboard
  let widgets := r7.1
  let r8 := gen_alerts r7.2.1 r7.2.2 projects metrics now cfg.alerts_per_project
  let alerts := r8.1
  let r9 := gen_incidents r8.2.1 r8.2.2 alerts now cfg.incidents_per_alert
  let incidents := r9.1
  let r10 := gen_eval_suites r9.2.1 r9.2.2 projects cfg.suites_per_project
  let eval_suites := r10.1
  let r11 := gen_eval_runs r10.2.1 r10.2.2 eval_suites now cfg.runs_per_suite
  let eval_runs := r11.1
  let r12 := gen_permissions projects users cfg.permissions_per_user r11.2.2
  let permissions := r12.1
  let r13 := gen_feature_flags orgs cfg.feature_flags_count r12.2
  let feature_flags := r13.1
  let r14 := gen_audit_logs r11.2.1 r13.2 orgs users projects dashboards widgets alerts now
    cfg.audit_logs_count
  let audit_logs := r14.1
  { orgs := orgs, users := users, projects := projects, permissions := permissions,
    feature_flags := feature_flags, dashboards := dashboards, widgets := widgets,
    metrics := metrics, metric_samples := metric_samples, alerts := alerts,
    incidents := incidents, eval_suites := eval_suites, eval_runs := eval_runs,
    audit_logs := audit_logs }

/-- The generation entry point: `random.seed(seed)` then the generator chain. -/
def build_mock_data (seed : Nat) (cfg : Config) (now : Int) : Data :=
  build_mock_data_rng (seedRng seed) cfg now

/-! ## Generic lemmas about the loop combinators -/

theorem length_fanOut (L : β → Nat) {f : β → σ → List α × σ}
    (hf : ∀ b s, (f b s).1.length = L b) :
    ∀ bs s, (fanOut f bs s).1.length = (bs.map L).sum := by
  intro bs
  induction bs with
  | nil => intro s; simp [fanOut]
  | cons b bs ih => intro s; simp [fanOut, hf, ih]

theorem iterGenIdx_congr {g g' : Nat → σ → α × σ} (h : ∀ i s, g i s = g' i s) :
    ∀ k j s, iterGenIdx g j k s = iterGenIdx g' j k s := by
  intro k
  induction k with
  | zero => intro j s; rfl
  | succ k ih => intro j s; simp only [iterGenIdx, h, ih]

theorem fanOut_congr {f f' : β → σ → List α × σ} (h : ∀ b s, f b s = f' b s) :
    ∀ bs s, fanOut f bs s = fanOut f' bs s := by
  intro bs
  induction bs with
  | nil => intro s; rfl
  | cons b bs ih => intro s; simp only [fanOut, h, ih]

theorem iterGenIdx_rel {g g' : Nat → σ → α × σ} {h : α → γ}
    (hgg : ∀ i s, h (g i s).1 = h (g' i s).1 ∧ (g i s).2 = (g' i s).2) :
    ∀ k j s, (iterGenIdx g j k s).1.map h = (iterGenIdx g' j k s).1.map h
      ∧ (iterGenIdx g j k s).2 = (iterGenIdx g' j k s).2 := by
  intro k
  induction k with
  | zero => intro j s; exact ⟨rfl, rfl⟩
  | succ k ih =>
    intro j s
    obtain ⟨h1, h2⟩ := hgg j s
    simp only [iterGenIdx, List.map_cons]
    rw [h1, h2]
    exact ⟨by rw [(ih (j + 1) (g' j s).2).1], (ih (j + 1) (g' j s).2).2⟩

theorem fanOut_rel {f f' : β → σ → List α × σ} {h : α → γ}
    (hff : ∀ b s, (f b s).1.map h = (f' b s).1.map h ∧ (f b s).2 = (f' b s).2) :
    ∀ bs s, (fanOut f bs s).1.map h = (fanOut f' bs s).1.map h
      ∧ (fanOut f bs s).2 = (fanOut f' bs s).2 := by
  intro bs
  induction bs with
  | nil => intro s; exact ⟨rfl, rfl⟩
  | cons b bs ih =>
    intro s
    obtain ⟨h1, h2⟩ := hff b s
    simp only [fanOut, List.map_append]
    rw [h1, h2]
    exact ⟨by rw [(ih (f' b s).2).1], (ih (f' b s).2).2⟩

theorem iterGenIdx_ids (ident : α → String) (cnt : σ → Nat) (p : String) {g : Nat → σ → α × σ}
    (hid : ∀ i s, ident (g i s).1 = mkId p (cnt s + 1))
    (hcnt : ∀ i s, cnt (g i s).2 = cnt s + 1) :
    ∀ k j s, (iterGenIdx g j k s).1.map ident = (List.range' (cnt s + 1) k).map (mkId p)
      ∧ cnt (iterGenIdx g j k s).2 = cnt s + k := by
  intro k
  induction k with
  | zero => intro j s; simp [iterGenIdx]
  | succ k ih =>
    intro j s
    obtain ⟨ih1, ih2⟩ := ih (j + 1) (g j s).2
    rw [hcnt j s] at ih1 ih2
    simp only [iterGenIdx, List.map_cons, List.range'_succ]
    refine ⟨?_, by omega⟩
    rw [hid j s, ih1]

theorem fanOut_ids (ident : α → String) (cnt : σ → Nat) (p : String) {f : β → σ → List α × σ}
    (hf : ∀ b s, (f b s).1.map ident =
        (List.range' (cnt s + 1) (f b s).1.length).map (mkId p)
      ∧ cnt (f b s).2 = cnt s + (f b s).1.length) :
    ∀ bs s, ∃ l, (fanOut f bs s).1.map ident = (List.range' (cnt s + 1) l).map (mkId p)
      ∧ cnt (fanOut f bs s).2 = cnt s + l := by
  intro bs
  induction bs with
  | nil => intro s; exact ⟨0, by simp [fanOut]⟩
  | cons b bs ih =>
    intro s
    obtain ⟨l, hl1, hl2⟩ := ih (f b s).2
    obtain ⟨hb1, hb2⟩ := hf b s
    rw [hb2] at hl1 hl2
    refine ⟨(f b s).1.length + l, ?_, by simp only [fanOut]; omega⟩
    simp only [fanOut, List.map_append]
    rw [hb1, hl1, ← List.map_append]
    congr 1
    have hr := List.range'_append (cnt s + 1) (f b s).1.length l 1
    simp only [one_mul] at hr
    rw [show cnt s + 1 + (f b s).1.length = cnt s + (f b s).1.length + 1 by omega] at hr
    rw [Nat.add_comm (f b s).1.length l]
    exact hr

theorem fanOut_filter (key : α → String) (keyB : β → String) {f : β → σ → List α × σ}
    {bs : List β}
    (hk : ∀ b ∈ bs, ∀ s, ∀ a ∈ (f b s).1, key a = keyB b)
    (hnd : (bs.map keyB).Nodup) :
    ∀ s, ∀ b ∈ bs, ∃ s', (fanOut f bs s).1.filter (fun a => key a == keyB b) = (f b s').1 := by
  induction bs with
  | nil => intro s b hb; simp at hb
  | cons c cs ih =>
    intro s b hb
    simp only [List.map_cons, List.nodup_cons] at hnd
    have hmem : ∀ a ∈ (fanOut f cs (f c s).2).1, ∃ b' ∈ cs, key a = keyB b' :=
      mem_fanOut (fun a => ∃ b' ∈ cs, key a = keyB b')
        (fun b' hb' s' a ha => ⟨b', hb', hk b' (List.mem_cons_of_mem _ hb') s' a ha⟩)
        (f c s).2
    simp only [fanOut, List.filter_append]
    rcases List.mem_cons.mp hb with rfl | hb'
    · refine ⟨s, ?_⟩
      have h1 : (f b s).1.filter (fun a => key a == keyB b) = (f b s).1 :=
        List.filter_eq_self.mpr fun a ha => by
          simp [hk b (List.mem_cons_self _ _) s a ha]
      have h2 : (fanOut f cs (f b s).2).1.filter (fun a => key a == keyB b) = [] := by
        apply List.filter_eq_nil_iff.mpr
        intro a ha
        obtain ⟨b', hb', hkey⟩ := hmem a ha
        simp only [beq_iff_eq, hkey]
        intro hcontra
        exact hnd.1 (hcontra ▸ List.mem_map_of_mem keyB hb')
      rw [h1, h2, List.append_nil]
    · have h1 : (f c s).1.filter (fun a => key a == keyB b) = [] := by
        apply List.filter_eq_nil_iff.mpr
        intro a ha
        rw [hk c (List.mem_cons_self _ _) s a ha]
        simp only [beq_iff_eq]
        intro hcontra
        exact hnd.1 (hcontra ▸ List.mem_map_of_mem keyB hb')
      obtain ⟨s', hs'⟩ := ih (fun b' hb'' => hk b' (List.mem_cons_of_mem _ hb'')) hnd.2
        (f c s).2 b hb'
      exact ⟨s', by rw [h1, hs', List.nil_append]⟩

/-! ## Membership facts about the sampling primitives -/

theorem chooseD_mem (r : Rng) (x : α) (xs : List α) (dflt : α) :
    (r.chooseD (x :: xs) dflt).1 ∈ x :: xs := by
  have hlt : r.stream r.idx % (x :: xs).length < (x :: xs).length :=
    Nat.mod_lt _ (by simp)
  simp only [Rng.chooseD, Rng.draw]
  rw [List.getD_eq_getElem?_getD, List.getElem?_eq_getElem hlt]
  exact List.getElem_mem hlt

/-! ## Identifier structure of the generated collections -/

theorem IdFactory.next_fst (idf : IdFactory) (p : String) :
    (idf.next p).1 = mkId p (idf.counters p + 1) := rfl

theorem IdFactory.next_counters_self (idf : IdFactory) (p : String) :
    (idf.next p).2.counters p = idf.counters p + 1 := by
  simp [IdFactory.next]

/-- The ids of one collection form a block `mkId p s, mkId p (s+1), ...` of
consecutive counter values for the collection's prefix. -/
def IdsBlock (p : String) (ids : List String) : Prop :=
  ∃ s l, ids = (List.range' s l).map (mkId p)

theorem IdsBlock.nodup {p : String} {ids : List String} (h : IdsBlock p ids) : ids.Nodup := by
  obtain ⟨s, l, rfl⟩ := h
  exact List.Nodup.map (mkId_injective p) (List.nodup_range' s l)

theorem IdsBlock.disjoint {p q : String} {ids ids' : List String}
    (hp : NoUnderscore p) (hq : NoUnderscore q) (hpq : p ≠ q)
    (h : IdsBlock p ids) (h' : IdsBlock q ids') : ids.Disjoint ids' := by
  obtain ⟨s, l, rfl⟩ := h
  obtain ⟨s', l', rfl⟩ := h'
  intro a ha ha'
  simp only [List.mem_map] at ha ha'
  obtain ⟨n, _, rfl⟩ := ha
  obtain ⟨m, _, heq⟩ := ha'
  exact mkId_ne hq hp (Ne.symm hpq) m n heq

theorem genOrgStep_id (names : List String) (i : Nat) (s : IdFactory × Rng) :
    (genOrgStep names i s).1.id = mkId "org" (s.1.counters "org" + 1) := rfl

theorem genOrgStep_cnt (names : List String) (i : Nat) (s : IdFactory × Rng) :
    (genOrgStep names i s).2.1.counters "org" = s.1.counters "org" + 1 := by
  rcases s with ⟨idf, rng⟩
  simp [genOrgStep, IdFactory.next]

theorem genUserStep_id (pool : List String) (oid domain : String) (i : Nat)
    (s : IdFactory × Rng × Nat) :
    (genUserStep pool oid domain i s).1.id = mkId "usr" (s.1.counters "usr" + 1) := rfl

theorem genUserStep_cnt (pool : List String) (oid domain : String) (i : Nat)
    (s : IdFactory × Rng × Nat) :
    (genUserStep pool oid domain i s).2.1.counters "usr" = s.1.counters "usr" + 1 := by
  rcases s with ⟨idf, rng, ni⟩
  simp [genUserStep, IdFactory.next]

theorem genProjectStep_id (oid : String) (i : Nat) (s : IdFactory × Rng) :
    (genProjectStep oid i s).1.id = mkId "prj" (s.1.counters "prj" + 1) := rfl

theorem genProjectStep_cnt (oid : String) (i : Nat) (s : IdFactory × Rng) :
    (genProjectStep oid i s).2.1.counters "prj" = s.1.counters "prj" + 1 := by
  rcases s with ⟨idf, rng⟩
  simp [genProjectStep, IdFactory.next]

theorem genDashStep_id (orgUsers : List User) (pid : String) (i : Nat) (s : IdFactory × Rng) :
    (genDashStep orgUsers pid i s).1.id = mkId "db" (s.1.counters "db" + 1) := by
  rcases s with ⟨idf, rng⟩
  cases orgUsers <;> rfl

theorem genDashStep_cnt (orgUsers : List User) (pid : String) (i : Nat) (s : IdFactory × Rng) :
    (genDashStep orgUsers pid i s).2.1.counters "db" = s.1.counters "db" + 1 := by
  rcases s with ⟨idf, rng⟩
  cases orgUsers <;> simp [genDashStep, IdFactory.next]

theorem genMetricStep_id (pid : String) (i : Nat) (s : IdFactory × Rng × List String) :
    (genMetricStep pid i s).1.id = mkId "m" (s.1.counters "m" + 1) := rfl

theorem genMetricStep_cnt (pid : String) (i : Nat) (s : IdFactory × Rng × List String) :
    (genMetricStep pid i s).2.1.counters "m" = s.1.counters "m" + 1 := by
  rcases s with ⟨idf, rng, used⟩
  simp [genMetricStep, IdFactory.next]

theorem genWidgetStep_id (prjMetrics : List Metric) (dbId : String) (i : Nat)
    (s : IdFactory × Rng) :
    (genWidgetStep prjMetrics dbId i s).1.id = mkId "w" (s.1.counters "w" + 1) := by
  rcases s with ⟨idf, rng⟩
  cases prjMetrics <;> rfl

theorem genWidgetStep_cnt (prjMetrics : List Metric) (dbId : String) (i : Nat)
    (s : IdFactory × Rng) :
    (genWidgetStep prjMetrics dbId i s).2.1.counters "w" = s.1.counters "w" + 1 := by
  rcases s with ⟨idf, rng⟩
  cases prjMetrics <;> simp [genWidgetStep, IdFactory.next]

theorem genAlertStep_id (prjMetrics : List Metric) (pid : String) (now : Int) (i : Nat)
    (s : IdFactory × Rng) :
    (genAlertStep prjMetrics pid now i s).1.id = mkId "al" (s.1.counters "al" + 1) := by
  rcases s with ⟨idf, rng⟩
  cases prjMetrics <;> rfl

theorem genAlertStep_cnt (prjMetrics : List Metric) (pid : String) (now : Int) (i : Nat)
    (s : IdFactory × Rng) :
    (genAlertStep prjMetrics pid now i s).2.1.counters "al" = s.1.counters "al" + 1 := by
  rcases s with ⟨idf, rng⟩
  cases prjMetrics <;> simp [genAlertStep, IdFactory.next]

theorem genIncidentStep_id (alertId : String) (now : Int) (i : Nat) (s : IdFactory × Rng) :
    (genIncidentStep alertId now i s).1.id = mkId "inc" (s.1.counters "inc" + 1) := by
  rcases s with ⟨idf, rng⟩
  by_cases h : ((rng.draw.2.draw.2.draw.1) % 1000000) > 500000 <;>
    simp [genIncidentStep, IdFactory.next, Rng.randint, Rng.random, Rng.draw, h]

theorem genIncidentStep_cnt (alertId : String) (now : Int) (i : Nat) (s : IdFactory × Rng) :
    (genIncidentStep alertId now i s).2.1.counters "inc" = s.1.counters "inc" + 1 := by
  rcases s with ⟨idf, rng⟩
  by_cases h : ((rng.draw.2.draw.2.draw.1) % 1000000) > 500000 <;>
    simp [genIncidentStep, IdFactory.next, Rng.randint, Rng.random, Rng.draw, h]

theorem genSuiteStep_id (pid : String) (i : Nat) (s : IdFactory × Rng) :
    (genSuiteStep pid i s).1.id = mkId "es" (s.1.counters "es" + 1) := rfl

theorem genSuiteStep_cnt (pid : String) (i : Nat) (s : IdFactory × Rng) :
    (genSuiteStep pid i s).2.1.counters "es" = s.1.counters "es" + 1 := by
  rcases s with ⟨idf, rng⟩
  simp [genSuiteStep, IdFactory.next]

theorem genRunStep_id (suiteId : String) (now : Int) (i : Nat) (s : IdFactory × Rng) :
    (genRunStep suiteId now i s).1.id = mkId "er" (s.1.counters "er" + 1) := rfl

theorem genRunStep_cnt (suiteId : String) (now : Int) (i : Nat) (s : IdFactory × Rng) :
    (genRunStep suiteId now i s).2.1.counters "er" = s.1.counters "er" + 1 := by
  rcases s with ⟨idf, rng⟩
  simp [genRunStep, IdFactory.next]

theorem genAuditStep_id (orgs : List Org) (users : List User) (pool : List (String × String))
    (now : Int) (i : Nat) (s : IdFactory × Rng) :
    (genAuditStep orgs users pool now i s).1.id = mkId "aud" (s.1.counters "aud" + 1) := by
  rcases s with ⟨idf, rng⟩
  cases users <;> cases pool <;> rfl

theorem genAuditStep_cnt (orgs : List Org) (users : List User) (pool : List (String × String))
    (now : Int) (i : Nat) (s : IdFactory × Rng) :
    (genAuditStep orgs users pool now i s).2.1.counters "aud" = s.1.counters "aud" + 1 := by
  rcases s with ⟨idf, rng⟩
  cases users <;> cases pool <;> simp [genAuditStep, IdFactory.next]

theorem gen_orgs_ids (idf : IdFactory) (rng : Rng) (n : Int) :
    IdsBlock "org" ((gen_orgs idf rng n).1.map Org.id) := by
  rcases hs : rng.shuffle ORG_NAMES with ⟨names, rng2⟩
  refine ⟨idf.counters "org" + 1, n.toNat, ?_⟩
  simp only [gen_orgs, hs]
  exact (iterGenIdx_ids Org.id (fun x => x.1.counters "org") "org"
    (genOrgStep_id names) (genOrgStep_cnt names) n.toNat 0 (idf, rng2)).1

theorem gen_users_ids (idf : IdFactory) (rng : Rng) (orgs : List Org) (k : Int) :
    IdsBlock "usr" ((gen_users idf rng orgs k).1.map User.id) := by
  rcases hs : rng.shuffle FIRST_NAMES with ⟨pool, rng2⟩
  have hf : ∀ (org : Org) (s : IdFactory × Rng × Nat),
      (iterGenIdx (genUserStep pool org.id (slugify org.name ++ ".com"))
          0 k.toNat s).1.map User.id =
        (List.range' (s.1.counters "usr" + 1)
          (iterGenIdx (genUserStep pool org.id (slugify org.name ++ ".com"))
            0 k.toNat s).1.length).map (mkId "usr")
      ∧ (iterGenIdx (genUserStep pool org.id (slugify org.name ++ ".com"))
          0 k.toNat s).2.1.counters "usr" =
        s.1.counters "usr" +
          (iterGenIdx (genUserStep pool org.id (slugify org.name ++ ".com"))
            0 k.toNat s).1.length := by
    intro org s
    rw [length_iterGenIdx]
    exact iterGenIdx_ids User.id (fun x => x.1.counters "usr") "usr"
      (genUserStep_id pool org.id (slugify org.name ++ ".com"))
      (genUserStep_cnt pool org.id (slugify org.name ++ ".com"))
      k.toNat 0 s
  obtain ⟨l, hl, _⟩ := fanOut_ids User.id (fun x => x.1.counters "usr") "usr" hf orgs
    (idf, rng2, 0)
  refine ⟨idf.counters "usr" + 1, l, ?_⟩
  simp only [gen_users, hs]
  exact hl

theorem gen_projects_ids (idf : IdFactory) (rng : Rng) (orgs : List Org) (k : Int) :
    IdsBlock "prj" ((gen_projects idf rng orgs k).1.map Project.id) := by
  have hf : ∀ (org : Org) (s : IdFactory × Rng),
      (iterGenIdx (genProjectStep org.id) 0 k.toNat s).1.map Project.id =
        (List.range' (s.1.counters "prj" + 1)
          (iterGenIdx (genProjectStep org.id) 0 k.toNat s).1.length).map (mkId "prj")
      ∧ (iterGenIdx (genProjectStep org.id) 0 k.toNat s).2.1.counters "prj" =
        s.1.counters "prj" + (iterGenIdx (genProjectStep org.id) 0 k.toNat s).1.length := by
    intro org s
    rw [length_iterGenIdx]
    exact iterGenIdx_ids Project.id (fun x => x.1.counters "prj") "prj"
      (genProjectStep_id org.id) (genProjectStep_cnt org.id) k.toNat 0 s
  obtain ⟨l, hl, _⟩ := fanOut_ids Project.id (fun x => x.1.counters "prj") "prj" hf orgs (idf, rng)
  exact ⟨idf.counters "prj" + 1, l, hl⟩

theorem gen_dashboards_ids (idf : IdFactory) (rng : Rng) (projects : List Project)
    (users : List User) (k : Int) :
    IdsBlock "db" ((gen_dashboards idf rng projects users k).1.map Dashboard.id) := by
  have hf : ∀ (prj : Project) (s : IdFactory × Rng),
      (iterGenIdx (genDashStep (usersByOrg users prj.org_id) prj.id) 0 k.toNat s).1.map
          Dashboard.id =
        (List.range' (s.1.counters "db" + 1)
          (iterGenIdx (genDashStep (usersByOrg users prj.org_id) prj.id) 0 k.toNat
            s).1.length).map (mkId "db")
      ∧ (iterGenIdx (genDashStep (usersByOrg users prj.org_id) prj.id) 0 k.toNat
          s).2.1.counters "db" =
        s.1.counters "db" +
          (iterGenIdx (genDashStep (usersByOrg users prj.org_id) prj.id) 0 k.toNat s).1.length := by
    intro prj s
    rw [length_iterGenIdx]
    exact iterGenIdx_ids Dashboard.id (fun x => x.1.counters "db") "db"
      (genDashStep_id (usersByOrg users prj.org_id) prj.id)
      (genDashStep_cnt (usersByOrg users prj.org_id) prj.id) k.toNat 0 s
  obtain ⟨l, hl, _⟩ := fanOut_ids Dashboard.id (fun x => x.1.counters "db") "db" hf projects
    (idf, rng)
  exact ⟨idf.counters "db" + 1, l, hl⟩

theorem gen_metrics_ids (idf : IdFactory) (rng : Rng) (projects : List Project) (k : Int) :
    IdsBlock "m" ((gen_metrics idf rng projects k).1.map Metric.id) := by
  have hf : ∀ (prj : Project) (s : IdFactory × Rng),
      (genMetricsForProject k.toNat prj s).1.map Metric.id =
        (List.range' (s.1.counters "m" + 1)
          (genMetricsForProject k.toNat prj s).1.length).map (mkId "m")
      ∧ (genMetricsForProject k.toNat prj s).2.1.counters "m" =
        s.1.counters "m" + (genMetricsForProject k.toNat prj s).1.length := by
    intro prj s
    simp only [genMetricsForProject]
    rw [length_iterGenIdx]
    exact iterGenIdx_ids Metric.id (fun x => x.1.counters "m") "m"
      (genMetricStep_id prj.id) (genMetricStep_cnt prj.id) k.toNat 0
      (s.1, s.2, ([] : List String))
  obtain ⟨l, hl, _⟩ := fanOut_ids Metric.id (fun x => x.1.counters "m") "m" hf projects (idf, rng)
  exact ⟨idf.counters "m" + 1, l, hl⟩

theorem gen_widgets_ids (idf : IdFactory) (rng : Rng) (dashboards : List Dashboard)
    (metrics : List Metric) (k : Int) :
    IdsBlock "w" ((gen_widgets idf rng dashboards metrics k).1.map Widget.id) := by
  have hf : ∀ (db : Dashboard) (s : IdFactory × Rng),
      (iterGenIdx (genWidgetStep (metricsByProject metrics db.project_id) db.id) 0 k.toNat
          s).1.map Widget.id =
        (List.range' (s.1.counters "w" + 1)
          (iterGenIdx (genWidgetStep (metricsByProject metrics db.project_id) db.id) 0 k.toNat
            s).1.length).map (mkId "w")
      ∧ (iterGenIdx (genWidgetStep (metricsByProject metrics db.project_id) db.id) 0 k.toNat
          s).2.1.counters "w" =
        s.1.counters "w" +
          (iterGenIdx (genWidgetStep (metricsByProject metrics db.project_id) db.id) 0 k.toNat
            s).1.length := by
    intro db s
    rw [length_iterGenIdx]
    exact iterGenIdx_ids Widget.id (fun x => x.1.counters "w") "w"
      (genWidgetStep_id (metricsByProject metrics db.project_id) db.id)
      (genWidgetStep_cnt (metricsByProject metrics db.project_id) db.id) k.toNat 0 s
  obtain ⟨l, hl, _⟩ := fanOut_ids Widget.id (fun x => x.1.counters "w") "w" hf dashboards
    (idf, rng)
  exact ⟨idf.counters "w" + 1, l, hl⟩

theorem gen_alerts_ids (idf : IdFactory) (rng : Rng) (projects : List Project)
    (metrics : List Metric) (now : Int) (k : Int) :
    IdsBlock "al" ((gen_alerts idf rng projects metrics now k).1.map Alert.id) := by
  have hf : ∀ (prj : Project) (s : IdFactory × Rng),
      (iterGenIdx (genAlertStep (metricsByProject metrics prj.id) prj.id now) 0 k.toNat
          s).1.map Alert.id =
        (List.range' (s.1.counters "al" + 1)
          (iterGenIdx (genAlertStep (metricsByProject metrics prj.id) prj.id now) 0 k.toNat
            s).1.length).map (mkId "al")
      ∧ (iterGenIdx (genAlertStep (metricsByProject metrics prj.id) prj.id now) 0 k.toNat
          s).2.1.counters "al" =
        s.1.counters "al" +
          (iterGenIdx (genAlertStep (metricsByProject metrics prj.id) prj.id now) 0 k.toNat
            s).1.length := by
    intro prj s
    rw [length_iterGenIdx]
    exact iterGenIdx_ids Alert.id (fun x => x.1.counters "al") "al"
      (genAlertStep_id (metricsByProject metrics prj.id) prj.id now)
      (genAlertStep_cnt (metricsByProject metrics prj.id) prj.id now) k.toNat 0 s
  obtain ⟨l, hl, _⟩ := fanOut_ids Alert.id (fun x => x.1.counters "al") "al" hf projects
    (idf, rng)
  exact ⟨idf.counters "al" + 1, l, hl⟩

theorem gen_incidents_ids (idf : IdFactory) (rng : Rng) (alerts : List Alert) (now : Int)
    (k : Int) :
    IdsBlock "inc" ((gen_incidents idf rng alerts now k).1.map Incident.id) := by
  have hf : ∀ (al : Alert) (s : IdFactory × Rng),
      (iterGenIdx (genIncidentStep al.id now) 0 k.toNat s).1.map Incident.id =
        (List.range' (s.1.counters "inc" + 1)
          (iterGenIdx (genIncidentStep al.id now) 0 k.toNat s).1.length).map (mkId "inc")
      ∧ (iterGenIdx (genIncidentStep al.id now) 0 k.toNat s).2.1.counters "inc" =
        s.1.counters "inc" + (iterGenIdx (genIncidentStep al.id now) 0 k.toNat s).1.length := by
    intro al s
    rw [length_iterGenIdx]
    exact iterGenIdx_ids Incident.id (fun x => x.1.counters "inc") "inc"
      (genIncidentStep_id al.id now) (genIncidentStep_cnt al.id now) k.toNat 0 s
  obtain ⟨l, hl, _⟩ := fanOut_ids Incident.id (fun x => x.1.counters "inc") "inc" hf alerts
    (idf, rng)
  exact ⟨idf.counters "inc" + 1, l, hl⟩

theorem gen_eval_suites_ids (idf : IdFactory) (rng : Rng) (projects : List Project) (k : Int) :
    IdsBlock "es" ((gen_eval_suites idf rng projects k).1.map EvalSuite.id) := by
  have hf : ∀ (prj : Project) (s : IdFactory × Rng),
      (iterGenIdx (genSuiteStep prj.id) 0 k.toNat s).1.map EvalSuite.id =
        (List.range' (s.1.counters "es" + 1)
          (iterGenIdx (genSuiteStep prj.id) 0 k.toNat s).1.length).map (mkId "es")
      ∧ (iterGenIdx (genSuiteStep prj.id) 0 k.toNat s).2.1.counters "es" =
        s.1.counters "es" + (iterGenIdx (genSuiteStep prj.id) 0 k.toNat s).1.length := by
    intro prj s
    rw [length_iterGenIdx]
    exact iterGenIdx_ids EvalSuite.id (fun x => x.1.counters "es") "es"
      (genSuiteStep_id prj.id) (genSuiteStep_cnt prj.id) k.toNat 0 s
  obtain ⟨l, hl, _⟩ := fanOut_ids EvalSuite.id (fun x => x.1.counters "es") "es" hf projects
    (idf, rng)
  exact ⟨idf.counters "es" + 1, l, hl⟩

theorem gen_eval_runs_ids (idf : IdFactory) (rng : Rng) (suites : List EvalSuite) (now : Int)
    (k : Int) :
    IdsBlock "er" ((gen_eval_runs idf rng suites now k).1.map EvalRun.id) := by
  have hf : ∀ (su : EvalSuite) (s : IdFactory × Rng),
      (iterGenIdx (genRunStep su.id now) 0 k.toNat s).1.map EvalRun.id =
        (List.range' (s.1.counters "er" + 1)
          (iterGenIdx (genRunStep su.id now) 0 k.toNat s).1.length).map (mkId "er")
      ∧ (iterGenIdx (genRunStep su.id now) 0 k.toNat s).2.1.counters "er" =
        s.1.counters "er" + (iterGenIdx (genRunStep su.id now) 0 k.toNat s).1.length := by
    intro su s
    rw [length_iterGenIdx]
    exact iterGenIdx_ids EvalRun.id (fun x => x.1.counters "er") "er"
      (genRunStep_id su.id now) (genRunStep_cnt su.id now) k.toNat 0 s
  obtain ⟨l, hl, _⟩ := fanOut_ids EvalRun.id (fun x => x.1.counters "er") "er" hf suites
    (idf, rng)
  exact ⟨idf.counters "er" + 1, l, hl⟩

theorem gen_audit_logs_ids (idf : IdFactory) (rng : Rng) (orgs : List Org) (users : List User)
    (projects : List Project) (dashboards : List Dashboard) (widgets : List Widget)
    (alerts : List Alert) (now : Int) (k : Int) :
    IdsBlock "aud"
      ((gen_audit_logs idf rng orgs users projects dashboards widgets alerts now k).1.map
        AuditLog.id) := by
  refine ⟨idf.counters "aud" + 1, k.toNat, ?_⟩
  exact (iterGenIdx_ids AuditLog.id (fun x => x.1.counters "aud") "aud"
    (genAuditStep_id orgs users (auditPool projects dashboards widgets alerts) now)
    (genAuditStep_cnt orgs users (auditPool projects dashboards widgets alerts) now)
    k.toNat 0 (idf, rng)).1

/-! ## Global identifier uniqueness -/

/-- All entity identifiers of a generated dataset, one block per id-bearing
collection (`permissions`, `feature_flags` and `metric_samples` carry no `id`
field). -/
def allIds (d : Data) : List String :=
  [d.orgs.map Org.id, d.users.map User.id, d.projects.map Project.id,
   d.dashboards.map Dashboard.id, d.metrics.map Metric.id, d.widgets.map Widget.id,
   d.alerts.map Alert.id, d.incidents.map Incident.id, d.eval_suites.map EvalSuite.id,
   d.eval_runs.map EvalRun.id, d.audit_logs.map AuditLog.id].flatten

theorem blocks_flatten_nodup : ∀ (blocks : List (String × List String)),
    (∀ pb ∈ blocks, NoUnderscore pb.1 ∧ IdsBlock pb.1 pb.2) →
    (blocks.map Prod.fst).Nodup →
    (blocks.map Prod.snd).flatten.Nodup := by
  intro blocks
  induction blocks with
  | nil => intro _ _; simp
  | cons b bs ih =>
    intro hb hn
    simp only [List.map_cons, List.flatten_cons, List.nodup_cons] at hn ⊢
    apply List.Nodup.append
    · exact (hb b (List.mem_cons_self _ _)).2.nodup
    · exact ih (fun pb hpb => hb pb (List.mem_cons_of_mem _ hpb)) hn.2
    · intro a ha ha'
      obtain ⟨l, hl, hal⟩ := List.mem_flatten.mp ha'
      obtain ⟨pb, hpb, rfl⟩ := List.mem_map.mp hl
      have hne : b.1 ≠ pb.1 := fun hcontra =>
        hn.1 (hcontra ▸ List.mem_map_of_mem Prod.fst hpb)
      exact IdsBlock.disjoint (hb b (List.mem_cons_self _ _)).1
        (hb pb (List.mem_cons_of_mem _ hpb)).1 hne
        (hb b (List.mem_cons_self _ _)).2 (hb pb (List.mem_cons_of_mem _ hpb)).2 ha hal

theorem allIds_nodup_of_blocks (d : Data)
    (h1 : IdsBlock "org" (d.orgs.map Org.id))
    (h2 : IdsBlock "usr" (d.users.map User.id))
    (h3 : IdsBlock "prj" (d.projects.map Project.id))
    (h4 : IdsBlock "db" (d.dashboards.map Dashboard.id))
    (h5 : IdsBlock "m" (d.metrics.map Metric.id))
    (h6 : IdsBlock "w" (d.widgets.map Widget.id))
    (h7 : IdsBlock "al" (d.alerts.map Alert.id))
    (h8 : IdsBlock "inc" (d.incidents.map Incident.id))
    (h9 : IdsBlock "es" (d.eval_suites.map EvalSuite.id))
    (h10 : IdsBlock "er" (d.eval_runs.map EvalRun.id))
    (h11 : IdsBlock "aud" (d.audit_logs.map AuditLog.id)) :
    (allIds d).Nodup := by
  have hb : ∀ pb ∈ ([("org", d.orgs.map Org.id), ("usr", d.users.map User.id),
      ("prj", d.projects.map Project.id), ("db", d.dashboards.map Dashboard.id),
      ("m", d.metrics.map Metric.id), ("w", d.widgets.map Widget.id),
      ("al", d.alerts.map Alert.id), ("inc", d.incidents.map Incident.id),
      ("es", d.eval_suites.map EvalSuite.id), ("er", d.eval_runs.map EvalRun.id),
      ("aud", d.audit_logs.map AuditLog.id)] : List (String × List String)),
      NoUnderscore pb.1 ∧ IdsBlock pb.1 pb.2 := by
    intro pb hpb
    simp only [List.mem_cons, List.not_mem_nil, or_false] at hpb
    rcases hpb with rfl | rfl | rfl | rfl | rfl | rfl | rfl | rfl | rfl | rfl | rfl
    exacts [⟨(by decide : NoUnderscore "org"), h1⟩, ⟨(by decide : NoUnderscore "usr"), h2⟩,
      ⟨(by decide : NoUnderscore "prj"), h3⟩, ⟨(by decide : NoUnderscore "db"), h4⟩,
      ⟨(by decide : NoUnderscore "m"), h5⟩, ⟨(by decide : NoUnderscore "w"), h6⟩,
      ⟨(by decide : NoUnderscore "al"), h7⟩, ⟨(by decide : NoUnderscore "inc"), h8⟩,
      ⟨(by decide : NoUnderscore "es"), h9⟩, ⟨(by decide : NoUnderscore "er"), h10⟩,
      ⟨(by decide : NoUnderscore "aud"), h11⟩]
  have hpfx : (([("org", d.orgs.map Org.id), ("usr", d.users.map User.id),
      ("prj", d.projects.map Project.id), ("db", d.dashboards.map Dashboard.id),
      ("m", d.metrics.map Metric.id), ("w", d.widgets.map Widget.id),
      ("al", d.alerts.map Alert.id), ("inc", d.incidents.map Incident.id),
      ("es", d.eval_suites.map EvalSuite.id), ("er", d.eval_runs.map EvalRun.id),
      ("aud", d.audit_logs.map AuditLog.id)] : List (String × List String)).map
        Prod.fst).Nodup := by
    simp only [List.map_cons, List.map_nil]
    decide
  have hnd := blocks_flatten_nodup _ hb hpfx
  simpa [allIds] using hnd

theorem build_allIds_nodup (rng : Rng) (cfg : Config) (now : Int) :
    (allIds (build_mock_data_rng rng cfg now)).Nodup := by
  apply allIds_nodup_of_blocks
  · exact gen_orgs_ids _ _ _
  · exact gen_users_ids _ _ _ _
  · exact gen_projects_ids _ _ _ _
  · exact gen_dashboards_ids _ _ _ _ _
  · exact gen_metrics_ids _ _ _ _
  · exact gen_widgets_ids _ _ _ _ _
  · exact gen_alerts_ids _ _ _ _ _ _
  · exact gen_incidents_ids _ _ _ _ _
  · exact gen_eval_suites_ids _ _ _ _
  · exact gen_eval_runs_ids _ _ _ _ _
  · exact gen_audit_logs_ids _ _ _ _ _ _ _ _ _ _

/-! ## Temporal helper lemmas -/

theorem iso_add_min (t : Int) (m : Nat) :
    iso (t + (m : Int) * 60000000) = iso t + (m : Int) * 60000000 := by
  unfold iso
  omega

theorem iso_lt_add_min (t : Int) (m : Nat) (h : 1 ≤ m) :
    iso t < iso (t + (m : Int) * 60000000) := by
  rw [iso_add_min]
  have : (1 : Int) ≤ (m : Int) := by exact_mod_cast h
  nlinarith

theorem randint_lower (r : Rng) (a b : Nat) : a ≤ (r.randint a b).1 := by
  simp [Rng.randint, Rng.draw]

/-! ## Membership structure of each generated collection -/

theorem gen_users_mem (idf : IdFactory) (rng : Rng) (orgs : List Org) (k : Int) :
    ∀ u ∈ (gen_users idf rng orgs k).1, ∃ o ∈ orgs, u.org_id = o.id := by
  rcases hs : rng.shuffle FIRST_NAMES with ⟨pool, rng2⟩
  simp only [gen_users, hs]
  refine mem_fanOut _ ?_ (idf, rng2, 0)
  intro org horg s
  refine mem_iterGenIdx _ ?_ k.toNat 0 s
  intro i s'
  exact ⟨org, horg, rfl⟩

theorem gen_projects_mem (idf : IdFactory) (rng : Rng) (orgs : List Org) (k : Int) :
    ∀ p ∈ (gen_projects idf rng orgs k).1, ∃ o ∈ orgs, p.org_id = o.id := by
  refine mem_fanOut _ ?_ (idf, rng)
  intro org horg s
  refine mem_iterGenIdx _ ?_ k.toNat 0 s
  intro i s'
  exact ⟨org, horg, rfl⟩

theorem gen_metrics_mem (idf : IdFactory) (rng : Rng) (projects : List Project) (k : Int) :
    ∀ m ∈ (gen_metrics idf rng projects k).1, ∃ prj ∈ projects, m.project_id = prj.id := by
  refine mem_fanOut _ ?_ (idf, rng)
  intro prj hprj s
  intro a ha
  simp only [genMetricsForProject] at ha
  exact mem_iterGenIdx (fun mm => ∃ prj ∈ projects, mm.project_id = prj.id)
    (fun i s' => ⟨prj, hprj, rfl⟩) k.toNat 0 (s.1, s.2, ([] : List String)) a ha

theorem gen_metric_samples_mem (metrics : List Metric) (k : Int) (now : Int) (rng : Rng) :
    ∀ smp ∈ (gen_metric_samples metrics k now rng).1, ∃ m ∈ metrics, smp.metric_id = m.id := by
  refine mem_fanOut _ ?_ rng
  intro m hm s
  refine mem_iterGenIdx _ ?_ k.toNat 0 s
  intro i s'
  exact ⟨m, hm, rfl⟩

theorem gen_eval_suites_mem (idf : IdFactory) (rng : Rng) (projects : List Project) (k : Int) :
    ∀ su ∈ (gen_eval_suites idf rng projects k).1, ∃ prj ∈ projects, su.project_id = prj.id := by
  refine mem_fanOut _ ?_ (idf, rng)
  intro prj hprj s
  refine mem_iterGenIdx _ ?_ k.toNat 0 s
  intro i s'
  exact ⟨prj, hprj, rfl⟩

theorem gen_eval_runs_mem (idf : IdFactory) (rng : Rng) (suites : List EvalSuite) (now : Int)
    (k : Int) :
    ∀ r ∈ (gen_eval_runs idf rng suites now k).1, ∃ su ∈ suites, r.suite_id = su.id := by
  refine mem_fanOut _ ?_ (idf, rng)
  intro su hsu s
  refine mem_iterGenIdx _ ?_ k.toNat 0 s
  intro i s'
  exact ⟨su, hsu, rfl⟩

theorem gen_dashboards_mem (idf : IdFactory) (rng : Rng) (projects : List Project)
    (users : List User) (k : Int) :
    ∀ d ∈ (gen_dashboards idf rng projects users k).1,
      ∃ prj ∈ projects, d.project_id = prj.id
        ∧ (d.owner_user_id = none
           ∨ ∃ u ∈ users, d.owner_user_id = some u.id ∧ u.org_id = prj.org_id) := by
  refine mem_fanOut _ ?_ (idf, rng)
  intro prj hprj s
  refine mem_iterGenIdx _ ?_ k.toNat 0 s
  intro i s'
  rcases s' with ⟨idf', rng'⟩
  rcases hu : usersByOrg users prj.org_id with _ | ⟨u0, us⟩
  · exact ⟨prj, hprj, by simp [genDashStep, hu], Or.inl (by simp [genDashStep, hu])⟩
  · have hxmem : ((rng'.chooseD (u0 :: us) u0)).1 ∈ u0 :: us := chooseD_mem rng' u0 us u0
    rw [← hu] at hxmem
    have hx := List.mem_filter.mp hxmem
    exact ⟨prj, hprj, by simp [genDashStep, hu],
      Or.inr ⟨_, hx.1, by simp [genDashStep, hu], by simpa using hx.2⟩⟩

theorem gen_widgets_mem (idf : IdFactory) (rng : Rng) (dashboards : List Dashboard)
    (metrics : List Metric) (k : Int) :
    ∀ w ∈ (gen_widgets idf rng dashboards metrics k).1,
      ∃ db ∈ dashboards, w.dashboard_id = db.id
        ∧ (w.metric_id = none
           ∨ ∃ m ∈ metrics, w.metric_id = some m.id ∧ m.project_id = db.project_id) := by
  refine mem_fanOut _ ?_ (idf, rng)
  intro db hdb s
  refine mem_iterGenIdx _ ?_ k.toNat 0 s
  intro i s'
  rcases s' with ⟨idf', rng'⟩
  rcases hm : metricsByProject metrics db.project_id with _ | ⟨m0, ms⟩
  · exact ⟨db, hdb, by simp [genWidgetStep, hm], Or.inl (by simp [genWidgetStep, hm])⟩
  · have hxmem : ((rng'.chooseD (m0 :: ms) m0)).1 ∈ m0 :: ms := chooseD_mem rng' m0 ms m0
    rw [← hm] at hxmem
    have hx := List.mem_filter.mp hxmem
    exact ⟨db, hdb, by simp [genWidgetStep, hm],
      Or.inr ⟨_, hx.1, by simp [genWidgetStep, hm], by simpa using hx.2⟩⟩

theorem gen_alerts_mem (idf : IdFactory) (rng : Rng) (projects : List Project)
    (metrics : List Metric) (now : Int) (k : Int) :
    ∀ a ∈ (gen_alerts idf rng projects metrics now k).1,
      ∃ prj ∈ projects, a.project_id = prj.id
        ∧ (a.metric_id = none
           ∨ ∃ m ∈ metrics, a.metric_id = some m.id ∧ m.project_id = prj.id) := by
  refine mem_fanOut _ ?_ (idf, rng)
  intro prj hprj s
  refine mem_iterGenIdx _ ?_ k.toNat 0 s
  intro i s'
  rcases s' with ⟨idf', rng'⟩
  rcases hm : metricsByProject metrics prj.id with _ | ⟨m0, ms⟩
  · exact ⟨prj, hprj, by simp [genAlertStep, hm], Or.inl (by simp [genAlertStep, hm])⟩
  · have hxmem : ((rng'.chooseD (m0 :: ms) m0)).1 ∈ m0 :: ms := chooseD_mem rng' m0 ms m0
    rw [← hm] at hxmem
    have hx := List.mem_filter.mp hxmem
    exact ⟨prj, hprj, by simp [genAlertStep, hm],
      Or.inr ⟨_, hx.1, by simp [genAlertStep, hm], by simpa using hx.2⟩⟩

theorem genIncidentStep_shape (alertId : String) (now : Int) (i : Nat) (s : IdFactory × Rng) :
    (genIncidentStep alertId now i s).1.alert_id = alertId
    ∧ (((genIncidentStep alertId now i s).1.status = "resolved"
        ∧ ∃ r, (genIncidentStep alertId now i s).1.resolved_at = some r
            ∧ (genIncidentStep alertId now i s).1.opened_at < r)
      ∨ ((genIncidentStep alertId now i s).1.status = "open"
        ∧ (genIncidentStep alertId now i s).1.resolved_at = none)) := by
  rcases s with ⟨idf, rng⟩
  by_cases h : 500000 < rng.stream (rng.idx + 1 + 1) % 1000000
  · refine ⟨by simp [genIncidentStep, Rng.randint, Rng.random, Rng.draw, h], Or.inl ⟨?_, ?_⟩⟩
    · simp [genIncidentStep, Rng.randint, Rng.random, Rng.draw, h]
    · rcases hro : (genIncidentStep alertId now i (idf, rng)).1.resolved_at with _ | r
      · exfalso
        simp [genIncidentStep, Rng.randint, Rng.random, Rng.draw, h] at hro
      · refine ⟨r, rfl, ?_⟩
        simp only [genIncidentStep, Rng.randint, Rng.random, Rng.draw] at hro ⊢
        rw [if_pos h] at hro
        simp only [Option.map_some', Option.some_inj] at hro
        rw [← hro]
        exact iso_lt_add_min _ _ (by omega)
  · refine ⟨by simp [genIncidentStep, Rng.randint, Rng.random, Rng.draw, h], Or.inr ⟨?_, ?_⟩⟩
    · simp [genIncidentStep, Rng.randint, Rng.random, Rng.draw, h]
    · simp [genIncidentStep, Rng.randint, Rng.random, Rng.draw, h]

theorem gen_incidents_mem (idf : IdFactory) (rng : Rng) (alerts : List Alert) (now : Int)
    (k : Int) :
    ∀ inc ∈ (gen_incidents idf rng alerts now k).1,
      (∃ al ∈ alerts, inc.alert_id = al.id)
      ∧ ((inc.status = "resolved"
          ∧ ∃ r, inc.resolved_at = some r ∧ inc.opened_at < r)
        ∨ (inc.status = "open" ∧ inc.resolved_at = none)) := by
  refine mem_fanOut _ ?_ (idf, rng)
  intro al hal s
  refine mem_iterGenIdx _ ?_ k.toNat 0 s
  intro i s'
  obtain ⟨h1, h2⟩ := genIncidentStep_shape al.id now i s'
  exact ⟨⟨al, hal, h1⟩, h2⟩

theorem permRetry_mem (p0 : Project) (ps : List Project) (chosen : List String) :
    ∀ (fuel : Nat) (prj : Project) (rng : Rng), prj ∈ p0 :: ps →
      (permRetry (p0 :: ps) chosen prj rng fuel).1 ∈ p0 :: ps := by
  intro fuel
  induction fuel with
  | zero => intro prj rng h; simpa [permRetry] using h
  | succ f ih =>
    intro prj rng h
    by_cases hin : prj.id ∈ chosen
    · simp only [permRetry, if_pos hin]
      exact ih _ _ (chooseD_mem rng p0 ps prj)
    · simpa [permRetry, hin] using h

theorem gen_permissions_mem (projects : List Project) (users : List User) (ppu : Int)
    (rng : Rng) :
    ∀ pm ∈ (gen_permissions projects users ppu rng).1,
      ∃ u ∈ users, pm.user_id = u.id
        ∧ ∃ prj ∈ projects, pm.project_id = prj.id ∧ prj.org_id = u.org_id := by
  refine mem_fanOut _ ?_ rng
  intro u hu rngS
  intro a ha
  simp only [genPermsForUser] at ha
  rcases hav : projectsByOrg projects u.org_id with _ | ⟨p0, ps⟩
  · rw [hav] at ha
    simp only [List.length_nil, Nat.cast_zero] at ha
    rw [(by omega : (min ppu (0 : Int)).toNat = 0)] at ha
    simp [iterGenIdx] at ha
  · rw [hav] at ha
    refine mem_iterGenIdx (fun pm => ∃ u' ∈ users, pm.user_id = u'.id
      ∧ ∃ prj ∈ projects, pm.project_id = prj.id ∧ prj.org_id = u'.org_id) ?_ _ 0
      ([], rngS) a ha
    intro i s'
    rcases s' with ⟨chosen, rngI⟩
    have hprj0 : ((rngI.chooseD (p0 :: ps) p0)).1 ∈ p0 :: ps := chooseD_mem rngI p0 ps p0
    have hret : (permRetry (p0 :: ps) chosen ((rngI.chooseD (p0 :: ps) p0)).1
        ((rngI.chooseD (p0 :: ps) p0)).2 10).1 ∈ p0 :: ps :=
      permRetry_mem p0 ps chosen 10 _ _ hprj0
    have hret2 : (permRetry (p0 :: ps) chosen ((rngI.chooseD (p0 :: ps) p0)).1
        ((rngI.chooseD (p0 :: ps) p0)).2 10).1 ∈ projectsByOrg projects u.org_id := by
      rw [hav]; exact hret
    have hret' := List.mem_filter.mp hret2
    refine ⟨u, hu, rfl, _, hret'.1, rfl, by simpa using hret'.2⟩

theorem flagOrgs_mem : ∀ (orgs : List Org) (rng : Rng),
    ∀ oid ∈ (flagOrgs orgs rng).1, ∃ o ∈ orgs, oid = o.id := by
  intro orgs
  induction orgs with
  | nil => intro rng oid h; simp [flagOrgs] at h
  | cons o os ih =>
    intro rng oid h
    simp only [flagOrgs] at h
    by_cases hr : (rng.random).1 > 600000
    · rw [if_pos hr] at h
      rcases List.mem_cons.mp h with rfl | h'
      · exact ⟨o, List.mem_cons_self _ _, rfl⟩
      · obtain ⟨o', ho', rfl⟩ := ih _ _ h'
        exact ⟨o', List.mem_cons_of_mem _ ho', rfl⟩
    · rw [if_neg hr] at h
      obtain ⟨o', ho', rfl⟩ := ih _ _ h
      exact ⟨o', List.mem_cons_of_mem _ ho', rfl⟩

theorem gen_feature_flags_mem (orgs : List Org) (k : Int) (rng : Rng) :
    ∀ fl ∈ (gen_feature_flags orgs k rng).1,
      ∀ oid ∈ fl.enabled_for_orgs, ∃ o ∈ orgs, oid = o.id := by
  refine mem_iterGenIdx _ ?_ k.toNat 0 rng
  intro i s'
  intro oid hoid
  have : (genFlagStep orgs i s').1.enabled_for_orgs = (flagOrgs orgs s').1 := rfl
  rw [this] at hoid
  exact flagOrgs_mem orgs s' oid hoid

theorem genAuditStep_shape (orgs : List Org) (users : List User)
    (pool : List (String × String)) (now : Int) (i : Nat) (s : IdFactory × Rng) :
    ((genAuditStep orgs users pool now i s).1.actor_user_id = none
      ∨ ∃ u ∈ users, (genAuditStep orgs users pool now i s).1.actor_user_id = some u.id)
    ∧ ((genAuditStep orgs users pool now i s).1.org_id = none
      ∨ (∃ o ∈ orgs, (genAuditStep orgs users pool now i s).1.org_id = some o.id)
      ∨ (∃ u ∈ users, (genAuditStep orgs users pool now i s).1.org_id = some u.org_id))
    ∧ ((genAuditStep orgs users pool now i s).1.target_id = none
      ∨ ∃ t ∈ pool, (genAuditStep orgs users pool now i s).1.target_id = some t.2) := by
  rcases s with ⟨idf, rng⟩
  cases users with
  | nil =>
    cases pool with
    | nil =>
      refine ⟨Or.inl (by simp [genAuditStep]), ?_, Or.inl (by simp [genAuditStep])⟩
      cases orgs with
      | nil => exact Or.inl (by simp [genAuditStep])
      | cons o os =>
        exact Or.inr (Or.inl ⟨o, List.mem_cons_self _ _, by simp [genAuditStep]⟩)
    | cons t ts =>
      refine ⟨Or.inl (by simp [genAuditStep]), ?_,
        Or.inr ⟨_, chooseD_mem rng t ts t, by simp [genAuditStep]⟩⟩
      cases orgs with
      | nil => exact Or.inl (by simp [genAuditStep])
      | cons o os =>
        exact Or.inr (Or.inl ⟨o, List.mem_cons_self _ _, by simp [genAuditStep]⟩)
  | cons u us =>
    cases pool with
    | nil =>
      exact ⟨Or.inr ⟨_, chooseD_mem rng u us u, by simp [genAuditStep]⟩,
        Or.inr (Or.inr ⟨_, chooseD_mem rng u us u, by simp [genAuditStep]⟩),
        Or.inl (by simp [genAuditStep])⟩
    | cons t ts =>
      exact ⟨Or.inr ⟨_, chooseD_mem rng u us u, by simp [genAuditStep]⟩,
        Or.inr (Or.inr ⟨_, chooseD_mem rng u us u, by simp [genAuditStep]⟩),
        Or.inr ⟨_, chooseD_mem (rng.chooseD (u :: us) u).2 t ts t, by simp [genAuditStep]⟩⟩

theorem gen_audit_logs_mem (idf : IdFactory) (rng : Rng) (orgs : List Org) (users : List User)
    (projects : List Project) (dashboards : List Dashboard) (widgets : List Widget)
    (alerts : List Alert) (now : Int) (k : Int) :
    ∀ lg ∈ (gen_audit_logs idf rng orgs users projects dashboards widgets alerts now k).1,
      (lg.actor_user_id = none ∨ ∃ u ∈ users, lg.actor_user_id = some u.id)
      ∧ (lg.org_id = none ∨ (∃ o ∈ orgs, lg.org_id = some o.id)
        ∨ (∃ u ∈ users, lg.org_id = some u.org_id))
      ∧ (lg.target_id = none
        ∨ ∃ t ∈ auditPool projects dashboards widgets alerts, lg.target_id = some t.2) := by
  refine mem_iterGenIdx _ ?_ k.toNat 0 (idf, rng)
  intro i s'
  exact genAuditStep_shape orgs users (auditPool projects dashboards widgets alerts) now i s'

/-! ## Cardinality and per-parent chunk structure -/

theorem sum_map_const {β : Type _} (l : List β) (c : Nat) :
    (l.map (fun _ => c)).sum = l.length * c := by
  induction l with
  | nil => simp
  | cons b bs ih => simp [ih, Nat.succ_mul, Nat.add_comm]

theorem gen_orgs_length (idf : IdFactory) (rng : Rng) (n : Int) :
    (gen_orgs idf rng n).1.length = n.toNat := by
  rcases hs : rng.shuffle ORG_NAMES with ⟨names, rng2⟩
  simp only [gen_orgs, hs]
  exact length_iterGenIdx _ n.toNat 0 (idf, rng2)

theorem gen_users_length (idf : IdFactory) (rng : Rng) (orgs : List Org) (k : Int) :
    (gen_users idf rng orgs k).1.length = orgs.length * k.toNat := by
  rcases hs : rng.shuffle FIRST_NAMES with ⟨pool, rng2⟩
  simp only [gen_users, hs]
  rw [length_fanOut (fun _ => k.toNat) (fun b s => length_iterGenIdx _ k.toNat 0 s) orgs
    (idf, rng2, 0)]
  exact sum_map_const orgs k.toNat

theorem fanOut_countP (P : α → Bool) (c : Nat) {f : β → σ → List α × σ}
    (hf : ∀ b s, ((f b s).1.filter P).length = c) :
    ∀ (bs : List β) (s : σ), ((fanOut f bs s).1.filter P).length = bs.length * c := by
  intro bs
  induction bs with
  | nil => intro s; simp [fanOut]
  | cons b bs ih =>
    intro s
    simp only [fanOut, List.filter_append, List.length_append, hf, ih, List.length_cons]
    rw [Nat.succ_mul]
    omega

theorem genUserStep_role_zero (pool : List String) (oid domain : String)
    (s : IdFactory × Rng × Nat) :
    (genUserStep pool oid domain 0 s).1.role = "admin" := rfl

theorem genUserStep_role_pos (pool : List String) (oid domain : String) (j : Nat)
    (hj : 1 ≤ j) (s : IdFactory × Rng × Nat) :
    ¬ (genUserStep pool oid domain j s).1.role = "admin" := by
  rcases s with ⟨idf, rng, ni⟩
  have hj0 : (j == 0) = false := by simp; omega
  by_cases hr : 200000 < rng.stream rng.idx % 1000000 <;>
    simp [genUserStep, hj0, hr, Rng.random, Rng.draw]

theorem genUserChunk_no_admin (pool : List String) (oid domain : String) :
    ∀ (k j : Nat), 1 ≤ j → ∀ s,
      (iterGenIdx (genUserStep pool oid domain) j k s).1.filter
        (fun u => u.role == "admin") = [] := by
  intro k
  induction k with
  | zero => intro j hj s; simp [iterGenIdx]
  | succ k ih =>
    intro j hj s
    simp only [iterGenIdx, List.filter_cons]
    have := genUserStep_role_pos pool oid domain j hj s
    simp only [beq_iff_eq, this, if_false]
    simpa using ih (j + 1) (by omega) (genUserStep pool oid domain j s).2

theorem genUserChunk_admin (pool : List String) (oid domain : String) (k : Nat) (hk : 1 ≤ k)
    (s : IdFactory × Rng × Nat) :
    (iterGenIdx (genUserStep pool oid domain) 0 k s).1.filter (fun u => u.role == "admin") =
      [(genUserStep pool oid domain 0 s).1] := by
  obtain ⟨k', rfl⟩ : ∃ k', k = k' + 1 := ⟨k - 1, by omega⟩
  simp only [iterGenIdx, List.filter_cons]
  have h0 := genUserStep_role_zero pool oid domain s
  simp only [beq_iff_eq, h0, if_true]
  rw [genUserChunk_no_admin pool oid domain k' 1 (by omega)]

theorem gen_users_admin_count (idf : IdFactory) (rng : Rng) (orgs : List Org) (k : Int)
    (hk : 1 ≤ k.toNat) :
    ((gen_users idf rng orgs k).1.filter (fun u => u.role == "admin")).length =
      orgs.length := by
  rcases hs : rng.shuffle FIRST_NAMES with ⟨pool, rng2⟩
  simp only [gen_users, hs]
  have hf : ∀ (org : Org) (s : IdFactory × Rng × Nat),
      ((iterGenIdx (genUserStep pool org.id (slugify org.name ++ ".com")) 0 k.toNat s).1.filter
        (fun u => u.role == "admin")).length = 1 := by
    intro org s
    rw [genUserChunk_admin pool org.id (slugify org.name ++ ".com") k.toNat hk s]
    rfl
  rw [fanOut_countP _ 1 hf orgs (idf, rng2, 0)]
  omega

theorem gen_users_org_chunk (idf : IdFactory) (rng : Rng) (orgs : List Org) (k : Int)
    (hnd : (orgs.map Org.id).Nodup) :
    ∀ o ∈ orgs, ∃ pool s',
      (gen_users idf rng orgs k).1.filter (fun u => u.org_id == o.id) =
        (iterGenIdx (genUserStep pool o.id (slugify o.name ++ ".com"))
          0 k.toNat s').1 := by
  rcases hs : rng.shuffle FIRST_NAMES with ⟨pool, rng2⟩
  simp only [gen_users, hs]
  intro o ho
  refine ⟨pool, ?_⟩
  have hk : ∀ b ∈ orgs, ∀ (s : IdFactory × Rng × Nat),
      ∀ u ∈ (iterGenIdx (genUserStep pool b.id (slugify b.name ++ ".com")) 0 k.toNat s).1,
        u.org_id = b.id := by
    intro b hb s
    refine mem_iterGenIdx _ ?_ k.toNat 0 s
    intro i s'
    rfl
  exact fanOut_filter User.org_id Org.id hk hnd (idf, rng2, 0) o ho

/-! ## Metric-sample chunk structure -/

theorem gen_metric_samples_chunk (metrics : List Metric) (k : Int) (now : Int) (rng : Rng)
    (hnd : (metrics.map Metric.id).Nodup) :
    ∀ m ∈ metrics, ∃ s',
      (gen_metric_samples metrics k now rng).1.filter (fun smp => smp.metric_id == m.id) =
        (iterGenIdx (genSampleStep m.id (dateOf now) k.toNat) 0 k.toNat s').1 := by
  intro m hm
  have hk : ∀ b ∈ metrics, ∀ (s : Rng),
      ∀ smp ∈ (iterGenIdx (genSampleStep b.id (dateOf now) k.toNat) 0 k.toNat s).1,
        smp.metric_id = b.id := by
    intro b hb s
    refine mem_iterGenIdx _ ?_ k.toNat 0 s
    intro i s'
    rfl
  exact fanOut_filter MetricSample.metric_id Metric.id hk hnd rng m hm

theorem genSampleStep_date (mid : String) (base : Int) (n : Nat) (i : Nat) (rng : Rng) :
    (genSampleStep mid base n i rng).1.date = base - ((n : Int) - 1 - (i : Int)) := rfl

/-! ## Permission chunk structure -/

theorem genPermStep_user (uid : String) (avail : List Project) (i : Nat)
    (s : List String × Rng) :
    (genPermStep uid avail i s).1.user_id = uid := by
  rcases s with ⟨chosen, rngI⟩
  cases avail <;> rfl

theorem genPermsForUser_length (projects : List Project) (ppu : Int) (u : User) (rng : Rng) :
    (genPermsForUser projects ppu u rng).1.length =
      (min ppu ((projectsByOrg projects u.org_id).length : Int)).toNat := by
  simp only [genPermsForUser]
  exact length_iterGenIdx _ _ 0 ([], rng)

theorem gen_permissions_user_chunk (projects : List Project) (users : List User) (ppu : Int)
    (rng : Rng) (hnd : (users.map User.id).Nodup) :
    ∀ u ∈ users, ∃ s',
      (gen_permissions projects users ppu rng).1.filter (fun pm => pm.user_id == u.id) =
        (genPermsForUser projects ppu u s').1 := by
  intro u hu
  have hk : ∀ b ∈ users, ∀ (s : Rng), ∀ pm ∈ (genPermsForUser projects ppu b s).1,
      pm.user_id = b.id := by
    intro b hb s
    intro pm hpm
    simp only [genPermsForUser] at hpm
    exact mem_iterGenIdx (fun pm' => pm'.user_id = b.id)
      (genPermStep_user b.id (projectsByOrg projects b.org_id)) _ 0 ([], s) pm hpm
  exact fanOut_filter Permission.user_id User.id hk hnd rng u hu

/-! ## Negative cardinality parameters behave exactly as zero

Every loop bound enters the generators through `Int.toNat` (Python's
`range(n)` is empty for `n ≤ 0`), so clamping the configuration at zero does
not change the output. -/

/-- The configuration with every cardinality parameter clamped up to zero. -/
def clampConfig (cfg : Config) : Config :=
  ⟨max cfg.orgs_count 0, max cfg.users_per_org 0, max cfg.projects_per_org 0,
   max cfg.dashboards_per_project 0, max cfg.widgets_per_dashboard 0,
   max cfg.metrics_per_project 0, max cfg.samples_per_metric 0,
   max cfg.alerts_per_project 0, max cfg.incidents_per_alert 0,
   max cfg.suites_per_project 0, max cfg.runs_per_suite 0,
   max cfg.permissions_per_user 0, max cfg.feature_flags_count 0,
   max cfg.audit_logs_count 0⟩

theorem gen_orgs_clamp (idf : IdFactory) (rng : Rng) (n : Int) :
    gen_orgs idf rng (max n 0) = gen_orgs idf rng n := by
  simp only [gen_orgs, show (max n 0).toNat = n.toNat from by omega]

theorem gen_users_clamp (idf : IdFactory) (rng : Rng) (orgs : List Org) (k : Int) :
    gen_users idf rng orgs (max k 0) = gen_users idf rng orgs k := by
  simp only [gen_users, show (max k 0).toNat = k.toNat from by omega]

theorem gen_projects_clamp (idf : IdFactory) (rng : Rng) (orgs : List Org) (k : Int) :
    gen_projects idf rng orgs (max k 0) = gen_projects idf rng orgs k := by
  simp only [gen_projects, show (max k 0).toNat = k.toNat from by omega]

theorem gen_dashboards_clamp (idf : IdFactory) (rng : Rng) (projects : List Project)
    (users : List User) (k : Int) :
    gen_dashboards idf rng projects users (max k 0) = gen_dashboards idf rng projects users k := by
  simp only [gen_dashboards, show (max k 0).toNat = k.toNat from by omega]

theorem gen_metrics_clamp (idf : IdFactory) (rng : Rng) (projects : List Project) (k : Int) :
    gen_metrics idf rng projects (max k 0) = gen_metrics idf rng projects k := by
  simp only [gen_metrics, show (max k 0).toNat = k.toNat from by omega]

theorem gen_metric_samples_clamp (metrics : List Metric) (k : Int) (now : Int) (rng : Rng) :
    gen_metric_samples metrics (max k 0) now rng = gen_metric_samples metrics k now rng := by
  simp only [gen_metric_samples, show (max k 0).toNat = k.toNat from by omega]

theorem gen_widgets_clamp (idf : IdFactory) (rng : Rng) (dashboards : List Dashboard)
    (metrics : List Metric) (k : Int) :
    gen_widgets idf rng dashboards metrics (max k 0) = gen_widgets idf rng dashboards metrics k := by
  simp only [gen_widgets, show (max k 0).toNat = k.toNat from by omega]

theorem gen_alerts_clamp (idf : IdFactory) (rng : Rng) (projects : List Project)
    (metrics : List Metric) (now : Int) (k : Int) :
    gen_alerts idf rng projects metrics now (max k 0) = gen_alerts idf rng projects metrics now k := by
  simp only [gen_alerts, show (max k 0).toNat = k.toNat from by omega]

theorem gen_incidents_clamp (idf : IdFactory) (rng : Rng) (alerts : List Alert) (now : Int)
    (k : Int) :
    gen_incidents idf rng alerts now (max k 0) = gen_incidents idf rng alerts now k := by
  simp only [gen_incidents, show (max k 0).toNat = k.toNat from by omega]

theorem gen_eval_suites_clamp (idf : IdFactory) (rng : Rng) (projects : List Project) (k : Int) :
    gen_eval_suites idf rng projects (max k 0) = gen_eval_suites idf rng projects k := by
  simp only [gen_eval_suites, show (max k 0).toNat = k.toNat from by omega]

theorem gen_eval_runs_clamp (idf : IdFactory) (rng : Rng) (suites : List EvalSuite) (now : Int)
    (k : Int) :
    gen_eval_runs idf rng suites now (max k 0) = gen_eval_runs idf rng suites now k := by
  simp only [gen_eval_runs, show (max k 0).toNat = k.toNat from by omega]

theorem gen_permissions_clamp (projects : List Project) (users : List User) (ppu : Int)
    (rng : Rng) :
    gen_permissions projects users (max ppu 0) rng = gen_permissions projects users ppu rng := by
  simp only [gen_permissions]
  apply fanOut_congr
  intro u s
  simp only [genPermsForUser,
    show ∀ b : Int, (min (max ppu 0) b).toNat = (min ppu b).toNat from fun b => by omega]

theorem gen_feature_flags_clamp (orgs : List Org) (k : Int) (rng : Rng) :
    gen_feature_flags orgs (max k 0) rng = gen_feature_flags orgs k rng := by
  simp only [gen_feature_flags, show (max k 0).toNat = k.toNat from by omega]

theorem gen_audit_logs_clamp (idf : IdFactory) (rng : Rng) (orgs : List Org)
    (users : List User) (projects : List Project) (dashboards : List Dashboard)
    (widgets : List Widget) (alerts : List Alert) (now : Int) (k : Int) :
    gen_audit_logs idf rng orgs users projects dashboards widgets alerts now (max k 0) =
      gen_audit_logs idf rng orgs users projects dashboards widgets alerts now k := by
  simp only [gen_audit_logs, show (max k 0).toNat = k.toNat from by omega]

set_option maxHeartbeats 2000000 in
theorem build_clamp (rng : Rng) (cfg : Config) (now : Int) :
    build_mock_data_rng rng (clampConfig cfg) now = build_mock_data_rng rng cfg now := by
  simp only [build_mock_data_rng, clampConfig]
  rw [gen_orgs_clamp, gen_users_clamp, gen_projects_clamp, gen_dashboards_clamp,
    gen_metrics_clamp, gen_metric_samples_clamp, gen_widgets_clamp, gen_alerts_clamp,
    gen_incidents_clamp, gen_eval_suites_clamp, gen_eval_runs_clamp, gen_permissions_clamp,
    gen_feature_flags_clamp, gen_audit_logs_clamp]

/-! ## Clock dependence

Erasing the timestamp-derived field values (and nothing else) makes the output
independent of the wall-clock instant `now`: the clock influences exactly the
timestamp fields. -/

def stripSample (s : MetricSample) : MetricSample := { s with date := 0 }

def stripAlert (a : Alert) : Alert := { a with last_fired_at := a.last_fired_at.map fun _ => 0 }

def stripIncident (i : Incident) : Incident :=
  { i with opened_at := 0, resolved_at := i.resolved_at.map fun _ => 0 }

def stripRun (r : EvalRun) : EvalRun := { r with created_at := 0 }

def stripAudit (lg : AuditLog) : AuditLog := { lg with at_ := 0 }

/-- A dataset with every timestamp-derived value erased. -/
def stripTimes (d : Data) : Data :=
  { d with metric_samples := d.metric_samples.map stripSample,
           alerts := d.alerts.map stripAlert,
           incidents := d.incidents.map stripIncident,
           eval_runs := d.eval_runs.map stripRun,
           audit_logs := d.audit_logs.map stripAudit }

theorem fanOut_rel₂ (h : α → γ) (kb : β → δ) (kb' : β' → δ)
    {f : β → σ → List α × σ} {f' : β' → σ → List α × σ}
    (hff : ∀ b b', kb b = kb' b' → ∀ s, (f b s).1.map h = (f' b' s).1.map h
      ∧ (f b s).2 = (f' b' s).2) :
    ∀ (bs : List β) (bs' : List β'), bs.map kb = bs'.map kb' →
      ∀ s, (fanOut f bs s).1.map h = (fanOut f' bs' s).1.map h
        ∧ (fanOut f bs s).2 = (fanOut f' bs' s).2 := by
  intro bs
  induction bs with
  | nil =>
    intro bs' hk s
    cases bs' with
    | nil => exact ⟨rfl, rfl⟩
    | cons b' rest' => simp at hk
  | cons b bs ih =>
    intro bs' hk s
    cases bs' with
    | nil => simp at hk
    | cons b' rest' =>
      simp only [List.map_cons, List.cons.injEq] at hk
      obtain ⟨h1, h2⟩ := hff b b' hk.1 s
      simp only [fanOut, List.map_append]
      rw [h1, h2]
      obtain ⟨ih1, ih2⟩ := ih rest' hk.2 (f' b' s).2
      exact ⟨by rw [ih1], ih2⟩

theorem genSampleStep_strip (mid : String) (b1 b2 : Int) (n : Nat) (i : Nat) (r : Rng) :
    stripSample (genSampleStep mid b1 n i r).1 = stripSample (genSampleStep mid b2 n i r).1
    ∧ (genSampleStep mid b1 n i r).2 = (genSampleStep mid b2 n i r).2 := ⟨rfl, rfl⟩

theorem genAlertStep_strip (pm : List Metric) (pid : String) (t1 t2 : Int) (i : Nat)
    (s : IdFactory × Rng) :
    stripAlert (genAlertStep pm pid t1 i s).1 = stripAlert (genAlertStep pm pid t2 i s).1
    ∧ (genAlertStep pm pid t1 i s).2 = (genAlertStep pm pid t2 i s).2 := by
  rcases s with ⟨idf, rng⟩
  cases pm <;>
    exact ⟨by simp [genAlertStep, stripAlert, apply_ite (Option.map (fun _ : Int => (0 : Int)))],
      rfl⟩

theorem genAlertStep_id_t (pm : List Metric) (pid : String) (t1 t2 : Int) (i : Nat)
    (s : IdFactory × Rng) :
    Alert.id (genAlertStep pm pid t1 i s).1 = Alert.id (genAlertStep pm pid t2 i s).1
    ∧ (genAlertStep pm pid t1 i s).2 = (genAlertStep pm pid t2 i s).2 := by
  rcases s with ⟨idf, rng⟩
  cases pm <;> exact ⟨rfl, rfl⟩

theorem genIncidentStep_strip (aid : String) (t1 t2 : Int) (i : Nat) (s : IdFactory × Rng) :
    stripIncident (genIncidentStep aid t1 i s).1 = stripIncident (genIncidentStep aid t2 i s).1
    ∧ (genIncidentStep aid t1 i s).2 = (genIncidentStep aid t2 i s).2 := by
  rcases s with ⟨idf, rng⟩
  constructor
  · simp [genIncidentStep, stripIncident, apply_ite (Option.map (fun _ : Int => (0 : Int))),
      apply_ite (fun x : Option Int × String × Rng => x.1), apply_ite Option.isSome,
      apply_ite (Option.map iso), apply_ite (fun x : Option Int × String × Rng => x.2.1)]
  · simp [genIncidentStep, apply_ite (fun x : Option Int × String × Rng => x.2.2)]

theorem genRunStep_strip (sid : String) (t1 t2 : Int) (i : Nat) (s : IdFactory × Rng) :
    stripRun (genRunStep sid t1 i s).1 = stripRun (genRunStep sid t2 i s).1
    ∧ (genRunStep sid t1 i s).2 = (genRunStep sid t2 i s).2 := ⟨rfl, rfl⟩

theorem genAuditStep_strip (orgs : List Org) (users : List User)
    (pool : List (String × String)) (t1 t2 : Int) (i : Nat) (s : IdFactory × Rng) :
    stripAudit (genAuditStep orgs users pool t1 i s).1 =
      stripAudit (genAuditStep orgs users pool t2 i s).1
    ∧ (genAuditStep orgs users pool t1 i s).2 = (genAuditStep orgs users pool t2 i s).2 := by
  rcases s with ⟨idf, rng⟩
  cases users <;> cases pool <;> exact ⟨rfl, rfl⟩

theorem gen_metric_samples_strip (t1 t2 : Int) : ∀ (M : List Metric) (k : Int) (r : Rng),
    (gen_metric_samples M k t1 r).1.map stripSample =
      (gen_metric_samples M k t2 r).1.map stripSample := by
  intro M k r
  exact (fanOut_rel (fun m s =>
    iterGenIdx_rel (fun i s' => genSampleStep_strip m.id (dateOf t1) (dateOf t2) k.toNat i s')
      k.toNat 0 s) M r).1

theorem gen_metric_samples_state (t1 t2 : Int) : ∀ (M : List Metric) (k : Int) (r : Rng),
    (gen_metric_samples M k t1 r).2 = (gen_metric_samples M k t2 r).2 := by
  intro M k r
  exact (fanOut_rel (fun m s =>
    iterGenIdx_rel (fun i s' => genSampleStep_strip m.id (dateOf t1) (dateOf t2) k.toNat i s')
      k.toNat 0 s) M r).2

theorem gen_alerts_strip (t1 t2 : Int) : ∀ (i : IdFactory) (r : Rng) (P : List Project)
    (M : List Metric) (k : Int),
    (gen_alerts i r P M t1 k).1.map stripAlert = (gen_alerts i r P M t2 k).1.map stripAlert := by
  intro i r P M k
  exact (fanOut_rel (fun prj s =>
    iterGenIdx_rel (fun j s' => genAlertStep_strip (metricsByProject M prj.id) prj.id t1 t2 j s')
      k.toNat 0 s) P (i, r)).1

theorem gen_alerts_state (t1 t2 : Int) : ∀ (i : IdFactory) (r : Rng) (P : List Project)
    (M : List Metric) (k : Int),
    (gen_alerts i r P M t1 k).2 = (gen_alerts i r P M t2 k).2 := by
  intro i r P M k
  exact (fanOut_rel (fun prj s =>
    iterGenIdx_rel (fun j s' => genAlertStep_strip (metricsByProject M prj.id) prj.id t1 t2 j s')
      k.toNat 0 s) P (i, r)).2

theorem gen_alerts_ids_t (t1 t2 : Int) : ∀ (i : IdFactory) (r : Rng) (P : List Project)
    (M : List Metric) (k : Int),
    (gen_alerts i r P M t1 k).1.map Alert.id = (gen_alerts i r P M t2 k).1.map Alert.id := by
  intro i r P M k
  exact (fanOut_rel (fun prj s =>
    iterGenIdx_rel (fun j s' => genAlertStep_id_t (metricsByProject M prj.id) prj.id t1 t2 j s')
      k.toNat 0 s) P (i, r)).1

theorem gen_incidents_strip (t1 t2 : Int) : ∀ (i2 : IdFactory) (r2 : Rng) (i : IdFactory)
    (r : Rng) (P : List Project) (M : List Metric) (ka ki : Int),
    (gen_incidents i2 r2 (gen_alerts i r P M t1 ka).1 t1 ki).1.map stripIncident =
      (gen_incidents i2 r2 (gen_alerts i r P M t2 ka).1 t2 ki).1.map stripIncident := by
  intro i2 r2 i r P M ka ki
  refine (fanOut_rel₂ stripIncident Alert.id Alert.id ?_ _ _
    (gen_alerts_ids_t t1 t2 i r P M ka) (i2, r2)).1
  intro al al' heq s
  have goalconv : ∀ j (s' : IdFactory × Rng),
      stripIncident (genIncidentStep al.id t1 j s').1 =
        stripIncident (genIncidentStep al'.id t2 j s').1
      ∧ (genIncidentStep al.id t1 j s').2 = (genIncidentStep al'.id t2 j s').2 := by
    intro j s'
    rw [← heq]
    exact genIncidentStep_strip al.id t1 t2 j s'
  exact iterGenIdx_rel goalconv ki.toNat 0 s

theorem gen_incidents_state (t1 t2 : Int) : ∀ (i2 : IdFactory) (r2 : Rng) (i : IdFactory)
    (r : Rng) (P : List Project) (M : List Metric) (ka ki : Int),
    (gen_incidents i2 r2 (gen_alerts i r P M t1 ka).1 t1 ki).2 =
      (gen_incidents i2 r2 (gen_alerts i r P M t2 ka).1 t2 ki).2 := by
  intro i2 r2 i r P M ka ki
  refine (fanOut_rel₂ stripIncident Alert.id Alert.id ?_ _ _
    (gen_alerts_ids_t t1 t2 i r P M ka) (i2, r2)).2
  intro al al' heq s
  have goalconv : ∀ j (s' : IdFactory × Rng),
      stripIncident (genIncidentStep al.id t1 j s').1 =
        stripIncident (genIncidentStep al'.id t2 j s').1
      ∧ (genIncidentStep al.id t1 j s').2 = (genIncidentStep al'.id t2 j s').2 := by
    intro j s'
    rw [← heq]
    exact genIncidentStep_strip al.id t1 t2 j s'
  exact iterGenIdx_rel goalconv ki.toNat 0 s

theorem gen_eval_runs_strip (t1 t2 : Int) : ∀ (i : IdFactory) (r : Rng) (S : List EvalSuite)
    (k : Int),
    (gen_eval_runs i r S t1 k).1.map stripRun = (gen_eval_runs i r S t2 k).1.map stripRun := by
  intro i r S k
  exact (fanOut_rel (fun su s =>
    iterGenIdx_rel (fun j s' => genRunStep_strip su.id t1 t2 j s') k.toNat 0 s) S (i, r)).1

theorem gen_eval_runs_state (t1 t2 : Int) : ∀ (i : IdFactory) (r : Rng) (S : List EvalSuite)
    (k : Int),
    (gen_eval_runs i r S t1 k).2 = (gen_eval_runs i r S t2 k).2 := by
  intro i r S k
  exact (fanOut_rel (fun su s =>
    iterGenIdx_rel (fun j s' => genRunStep_strip su.id t1 t2 j s') k.toNat 0 s) S (i, r)).2

theorem gen_audit_logs_strip (t1 t2 : Int) : ∀ (i2 : IdFactory) (r2 : Rng) (O : List Org)
    (U : List User) (P : List Project) (D : List Dashboard) (W : List Widget) (i : IdFactory)
    (r : Rng) (M : List Metric) (ka kau : Int),
    (gen_audit_logs i2 r2 O U P D W (gen_alerts i r P M t1 ka).1 t1 kau).1.map stripAudit =
      (gen_audit_logs i2 r2 O U P D W (gen_alerts i r P M t2 ka).1 t2 kau).1.map
        stripAudit := by
  intro i2 r2 O U P D W i r M ka kau
  have conv : ∀ l : List Alert,
      l.map (fun a => ("alert", a.id)) = (l.map Alert.id).map (fun s => ("alert", s)) := by
    intro l
    rw [List.map_map]
    rfl
  have hpool : auditPool P D W (gen_alerts i r P M t1 ka).1 =
      auditPool P D W (gen_alerts i r P M t2 ka).1 := by
    unfold auditPool
    rw [conv, conv, gen_alerts_ids_t t1 t2 i r P M ka]
  unfold gen_audit_logs
  rw [hpool]
  exact (iterGenIdx_rel (fun j s' =>
    genAuditStep_strip O U (auditPool P D W (gen_alerts i r P M t2 ka).1) t1 t2 j s')
    kau.toNat 0 (i2, r2)).1

set_option maxHeartbeats 4000000 in
theorem build_strip (rng : Rng) (cfg : Config) (t1 t2 : Int) :
    stripTimes (build_mock_data_rng rng cfg t1) = stripTimes (build_mock_data_rng rng cfg t2) := by
  simp only [build_mock_data_rng, stripTimes]
  rw [gen_metric_samples_strip t1 t2, gen_alerts_strip t1 t2, gen_incidents_strip t1 t2,
    gen_eval_runs_strip t1 t2, gen_audit_logs_strip t1 t2, gen_metric_samples_state t1 t2,
    gen_alerts_state t1 t2, gen_incidents_state t1 t2, gen_eval_runs_state t1 t2]

/-! ## Best-effort de-duplication of permission bindings

`permCleanGo` re-runs one user's binding loop and records whether every
binding was freshly sampled (`true`), or some binding exhausted the 10-attempt
retry budget and accepted an already-chosen project (`false`, the documented
accept-the-duplicate policy). -/

def permCleanGo (uid : String) (avail : List Project) : Nat → (List String × Rng) → Bool
  | 0, _ => true
  | k + 1, s =>
    let r := genPermStep uid avail 0 s
    if r.1.project_id ∈ s.1 then false
    else permCleanGo uid avail k r.2

/-- No retry-budget exhaustion during the generation of this user's bindings. -/
def permCleanUser (projects : List Project) (ppu : Int) (u : User) (rng : Rng) : Bool :=
  let avail := projectsByOrg projects u.org_id
  permCleanGo u.id avail (min ppu (avail.length : Int)).toNat ([], rng)

theorem genPermStep_index_irrel (uid : String) (avail : List Project) (i i' : Nat)
    (s : List String × Rng) : genPermStep uid avail i s = genPermStep uid avail i' s := rfl

theorem genPermStep_chosen (uid : String) (avail : List Project) (i : Nat)
    (s : List String × Rng) :
    (genPermStep uid avail i s).2.1 = (genPermStep uid avail i s).1.project_id :: s.1 := by
  rcases s with ⟨chosen, rng⟩
  cases avail <;> rfl

theorem permCleanGo_nodup (uid : String) (avail : List Project) :
    ∀ (k j : Nat) (chosen : List String) (rng : Rng),
      permCleanGo uid avail k (chosen, rng) = true →
      ((iterGenIdx (genPermStep uid avail) j k (chosen, rng)).1.map
          Permission.project_id).Nodup
      ∧ ∀ pid ∈ (iterGenIdx (genPermStep uid avail) j k (chosen, rng)).1.map
          Permission.project_id, pid ∉ chosen := by
  intro k
  induction k with
  | zero => intro j chosen rng _; simp [iterGenIdx]
  | succ k ih =>
    intro j chosen rng hclean
    simp only [permCleanGo] at hclean
    by_cases hin : (genPermStep uid avail 0 (chosen, rng)).1.project_id ∈ chosen
    · rw [if_pos hin] at hclean
      exact absurd hclean (by simp)
    · rw [if_neg hin] at hclean
      simp only [iterGenIdx, List.map_cons]
      have hidx : genPermStep uid avail j (chosen, rng) =
          genPermStep uid avail 0 (chosen, rng) := genPermStep_index_irrel _ _ _ _ _
      rw [hidx]
      have hstate : (genPermStep uid avail 0 (chosen, rng)).2 =
          ((genPermStep uid avail 0 (chosen, rng)).2.1,
            (genPermStep uid avail 0 (chosen, rng)).2.2) := rfl
      have hch := genPermStep_chosen uid avail 0 (chosen, rng)
      obtain ⟨ihnd, ihfresh⟩ := ih (j + 1) (genPermStep uid avail 0 (chosen, rng)).2.1
        (genPermStep uid avail 0 (chosen, rng)).2.2 (by rw [← hstate]; exact hclean)
      rw [← hstate] at ihnd ihfresh
      constructor
      · rw [List.nodup_cons]
        refine ⟨?_, ihnd⟩
        intro hmem
        have := ihfresh _ hmem
        rw [hch] at this
        exact this (List.mem_cons_self _ _)
      · intro pid hpid
        rcases List.mem_cons.mp hpid with rfl | hpid'
        · exact hin
        · have := ihfresh _ hpid'
          rw [hch] at this
          exact fun hc => this (List.mem_cons_of_mem _ hc)

theorem genPermsForUser_clean_nodup (projects : List Project) (ppu : Int) (u : User)
    (rng : Rng) (hclean : permCleanUser projects ppu u rng = true) :
    ((genPermsForUser projects ppu u rng).1.map Permission.project_id).Nodup := by
  simp only [genPermsForUser]
  exact (permCleanGo_nodup u.id (projectsByOrg projects u.org_id) _ 0 [] rng hclean).1

theorem pairs_nodup_of_const_user (l : List Permission) (c : String)
    (hall : ∀ pm ∈ l, pm.user_id = c)
    (hnd : (l.map Permission.project_id).Nodup) :
    (l.map (fun pm => (pm.user_id, pm.project_id))).Nodup := by
  have hmap : l.map (fun pm => (pm.user_id, pm.project_id)) =
      (l.map Permission.project_id).map (fun pid => (c, pid)) := by
    rw [List.map_map]
    exact List.map_congr_left fun pm hpm => by simp [hall pm hpm]
  rw [hmap]
  exact List.Nodup.map (fun a b hab => by simpa using hab) hnd

/-! ## Claim-level properties -/

/-- Referential integrity of a generated dataset: every foreign-key field
either references an existing record of its parent collection or holds the
explicit absent value `none`. -/
def ReferentialIntegrity (d : Data) : Prop :=
  (∀ u ∈ d.users, ∃ o ∈ d.orgs, u.org_id = o.id)
  ∧ (∀ p ∈ d.projects, ∃ o ∈ d.orgs, p.org_id = o.id)
  ∧ (∀ db ∈ d.dashboards, ∃ prj ∈ d.projects, db.project_id = prj.id)
  ∧ (∀ db ∈ d.dashboards, ∀ uid, db.owner_user_id = some uid → ∃ u ∈ d.users, u.id = uid)
  ∧ (∀ m ∈ d.metrics, ∃ prj ∈ d.projects, m.project_id = prj.id)
  ∧ (∀ smp ∈ d.metric_samples, ∃ m ∈ d.metrics, smp.metric_id = m.id)
  ∧ (∀ w ∈ d.widgets, ∃ db ∈ d.dashboards, w.dashboard_id = db.id)
  ∧ (∀ w ∈ d.widgets, ∀ mid, w.metric_id = some mid → ∃ m ∈ d.metrics, m.id = mid)
  ∧ (∀ a ∈ d.alerts, ∃ prj ∈ d.projects, a.project_id = prj.id)
  ∧ (∀ a ∈ d.alerts, ∀ mid, a.metric_id = some mid → ∃ m ∈ d.metrics, m.id = mid)
  ∧ (∀ inc ∈ d.incidents, ∃ al ∈ d.alerts, inc.alert_id = al.id)
  ∧ (∀ su ∈ d.eval_suites, ∃ prj ∈ d.projects, su.project_id = prj.id)
  ∧ (∀ r ∈ d.eval_runs, ∃ su ∈ d.eval_suites, r.suite_id = su.id)
  ∧ (∀ pm ∈ d.permissions, ∃ u ∈ d.users, pm.user_id = u.id)
  ∧ (∀ pm ∈ d.permissions, ∃ prj ∈ d.projects, pm.project_id = prj.id)
  ∧ (∀ fl ∈ d.feature_flags, ∀ oid ∈ fl.enabled_for_orgs, ∃ o ∈ d.orgs, oid = o.id)
  ∧ (∀ lg ∈ d.audit_logs, ∀ uid, lg.actor_user_id = some uid → ∃ u ∈ d.users, u.id = uid)
  ∧ (∀ lg ∈ d.audit_logs, ∀ oid, lg.org_id = some oid → ∃ o ∈ d.orgs, o.id = oid)
  ∧ (∀ lg ∈ d.audit_logs, ∀ tid, lg.target_id = some tid →
      (∃ p ∈ d.projects, p.id = tid) ∨ (∃ db ∈ d.dashboards, db.id = tid)
      ∨ (∃ w ∈ d.widgets, w.id = tid) ∨ (∃ a ∈ d.alerts, a.id = tid))

theorem auditPool_target (P : List Project) (D : List Dashboard) (W : List Widget)
    (A : List Alert) (t : String × String) (ht : t ∈ auditPool P D W A) :
    (∃ p ∈ P, p.id = t.2) ∨ (∃ db ∈ D, db.id = t.2) ∨ (∃ w ∈ W, w.id = t.2)
    ∨ (∃ a ∈ A, a.id = t.2) := by
  unfold auditPool at ht
  simp only [List.mem_append, List.mem_map] at ht
  rcases ht with ((⟨p, hp, rfl⟩ | ⟨db, hdb, rfl⟩) | ⟨w, hw, rfl⟩) | ⟨a, ha, rfl⟩
  · exact Or.inl ⟨p, hp, rfl⟩
  · exact Or.inr (Or.inl ⟨db, hdb, rfl⟩)
  · exact Or.inr (Or.inr (Or.inl ⟨w, hw, rfl⟩))
  · exact Or.inr (Or.inr (Or.inr ⟨a, ha, rfl⟩))

theorem build_refint (rng : Rng) (cfg : Config) (now : Int) :
    ReferentialIntegrity (build_mock_data_rng rng cfg now) := by
  have husers : ∀ u ∈ (build_mock_data_rng rng cfg now).users,
      ∃ o ∈ (build_mock_data_rng rng cfg now).orgs, u.org_id = o.id :=
    gen_users_mem _ _ _ _
  have hdash : ∀ db ∈ (build_mock_data_rng rng cfg now).dashboards,
      ∃ prj ∈ (build_mock_data_rng rng cfg now).projects, db.project_id = prj.id
        ∧ (db.owner_user_id = none
           ∨ ∃ u ∈ (build_mock_data_rng rng cfg now).users,
              db.owner_user_id = some u.id ∧ u.org_id = prj.org_id) :=
    gen_dashboards_mem _ _ _ _ _
  have hwid : ∀ w ∈ (build_mock_data_rng rng cfg now).widgets,
      ∃ db ∈ (build_mock_data_rng rng cfg now).dashboards, w.dashboard_id = db.id
        ∧ (w.metric_id = none
           ∨ ∃ m ∈ (build_mock_data_rng rng cfg now).metrics,
              w.metric_id = some m.id ∧ m.project_id = db.project_id) :=
    gen_widgets_mem _ _ _ _ _
  have halert : ∀ a ∈ (build_mock_data_rng rng cfg now).alerts,
      ∃ prj ∈ (build_mock_data_rng rng cfg now).projects, a.project_id = prj.id
        ∧ (a.metric_id = none
           ∨ ∃ m ∈ (build_mock_data_rng rng cfg now).metrics,
              a.metric_id = some m.id ∧ m.project_id = prj.id) :=
    gen_alerts_mem _ _ _ _ _ _
  have haud : ∀ lg ∈ (build_mock_data_rng rng cfg now).audit_logs,
      (lg.actor_user_id = none
        ∨ ∃ u ∈ (build_mock_data_rng rng cfg now).users, lg.actor_user_id = some u.id)
      ∧ (lg.org_id = none
        ∨ (∃ o ∈ (build_mock_data_rng rng cfg now).orgs, lg.org_id = some o.id)
        ∨ (∃ u ∈ (build_mock_data_rng rng cfg now).users, lg.org_id = some u.org_id))
      ∧ (lg.target_id = none
        ∨ ∃ t ∈ auditPool (build_mock_data_rng rng cfg now).projects
            (build_mock_data_rng rng cfg now).dashboards
            (build_mock_data_rng rng cfg now).widgets
            (build_mock_data_rng rng cfg now).alerts, lg.target_id = some t.2) :=
    gen_audit_logs_mem _ _ _ _ _ _ _ _ _ _
  have hperm : ∀ pm ∈ (build_mock_data_rng rng cfg now).permissions,
      ∃ u ∈ (build_mock_data_rng rng cfg now).users, pm.user_id = u.id
        ∧ ∃ prj ∈ (build_mock_data_rng rng cfg now).projects,
            pm.project_id = prj.id ∧ prj.org_id = u.org_id :=
    gen_permissions_mem _ _ _ _
  refine ⟨husers, gen_projects_mem _ _ _ _, ?_, ?_, gen_metrics_mem _ _ _ _,
    gen_metric_samples_mem _ _ _ _, ?_, ?_, ?_, ?_, ?_, gen_eval_suites_mem _ _ _ _,
    gen_eval_runs_mem _ _ _ _ _, ?_, ?_, gen_feature_flags_mem _ _ _, ?_, ?_, ?_⟩
  · intro db hdb
    obtain ⟨prj, hp, hpid, _⟩ := hdash db hdb
    exact ⟨prj, hp, hpid⟩
  · intro db hdb uid huid
    obtain ⟨prj, hp, hpid, howner⟩ := hdash db hdb
    rcases howner with hnone | ⟨u, hu, heq, _⟩
    · rw [huid] at hnone; exact absurd hnone (by simp)
    · rw [huid] at heq
      exact ⟨u, hu, by injection heq with h; exact h.symm⟩
  · intro w hw
    obtain ⟨db, hdb, hdid, _⟩ := hwid w hw
    exact ⟨db, hdb, hdid⟩
  · intro w hw mid hmid
    obtain ⟨db, hdb, hdid, hm⟩ := hwid w hw
    rcases hm with hnone | ⟨m, hmm, heq, _⟩
    · rw [hmid] at hnone; exact absurd hnone (by simp)
    · rw [hmid] at heq
      exact ⟨m, hmm, by injection heq with h; exact h.symm⟩
  · intro a ha
    obtain ⟨prj, hp, hpid, _⟩ := halert a ha
    exact ⟨prj, hp, hpid⟩
  · intro a ha mid hmid
    obtain ⟨prj, hp, hpid, hm⟩ := halert a ha
    rcases hm with hnone | ⟨m, hmm, heq, _⟩
    · rw [hmid] at hnone; exact absurd hnone (by simp)
    · rw [hmid] at heq
      exact ⟨m, hmm, by injection heq with h; exact h.symm⟩
  · intro inc hinc
    exact (gen_incidents_mem _ _ _ _ _ inc hinc).1
  · intro pm hpm
    obtain ⟨u, hu, huid, _⟩ := hperm pm hpm
    exact ⟨u, hu, huid⟩
  · intro pm hpm
    obtain ⟨u, hu, huid, prj, hp, hpid, _⟩ := hperm pm hpm
    exact ⟨prj, hp, hpid⟩
  · intro lg hlg uid huid
    obtain ⟨hactor, _, _⟩ := haud lg hlg
    rcases hactor with hnone | ⟨u, hu, heq⟩
    · rw [huid] at hnone; exact absurd hnone (by simp)
    · rw [huid] at heq
      exact ⟨u, hu, by injection heq with h; exact h.symm⟩
  · intro lg hlg oid hoid
    obtain ⟨_, horg, _⟩ := haud lg hlg
    rcases horg with hnone | ⟨o, ho, heq⟩ | ⟨u, hu, heq⟩
    · rw [hoid] at hnone; exact absurd hnone (by simp)
    · rw [hoid] at heq
      exact ⟨o, ho, by injection heq with h; exact h.symm⟩
    · rw [hoid] at heq
      obtain ⟨o, ho, horg'⟩ := husers u hu
      refine ⟨o, ho, ?_⟩
      injection heq with h
      rw [h, horg']
  · intro lg hlg tid htid
    obtain ⟨_, _, htarget⟩ := haud lg hlg
    rcases htarget with hnone | ⟨t, htp, heq⟩
    · rw [htid] at hnone; exact absurd hnone (by simp)
    · rw [htid] at heq
      have : t.2 = tid := by injection heq with h; exact h.symm
      rw [← this]
      exact auditPool_target _ _ _ _ t htp

/-- Scoped consistency: cross-references stay within the same project / org. -/
def ScopedConsistency (d : Data) : Prop :=
  (∀ w ∈ d.widgets, ∀ mid, w.metric_id = some mid →
    ∀ m ∈ d.metrics, m.id = mid →
    ∀ db ∈ d.dashboards, db.id = w.dashboard_id → m.project_id = db.project_id)
  ∧ (∀ db ∈ d.dashboards, ∀ uid, db.owner_user_id = some uid →
    ∀ u ∈ d.users, u.id = uid →
    ∀ p ∈ d.projects, p.id = db.project_id → u.org_id = p.org_id)
  ∧ (∀ a ∈ d.alerts, ∀ mid, a.metric_id = some mid →
    ∀ m ∈ d.metrics, m.id = mid → m.project_id = a.project_id)

theorem build_scoped (rng : Rng) (cfg : Config) (now : Int) :
    ScopedConsistency (build_mock_data_rng rng cfg now) := by
  have hndm : ((build_mock_data_rng rng cfg now).metrics.map Metric.id).Nodup :=
    (gen_metrics_ids _ _ _ _).nodup
  have hndd : ((build_mock_data_rng rng cfg now).dashboards.map Dashboard.id).Nodup :=
    (gen_dashboards_ids _ _ _ _ _).nodup
  have hndu : ((build_mock_data_rng rng cfg now).users.map User.id).Nodup :=
    (gen_users_ids _ _ _ _).nodup
  have hndp : ((build_mock_data_rng rng cfg now).projects.map Project.id).Nodup :=
    (gen_projects_ids _ _ _ _).nodup
  have hwid : ∀ w ∈ (build_mock_data_rng rng cfg now).widgets,
      ∃ db ∈ (build_mock_data_rng rng cfg now).dashboards, w.dashboard_id = db.id
        ∧ (w.metric_id = none
           ∨ ∃ m ∈ (build_mock_data_rng rng cfg now).metrics,
              w.metric_id = some m.id ∧ m.project_id = db.project_id) :=
    gen_widgets_mem _ _ _ _ _
  have hdash : ∀ db ∈ (build_mock_data_rng rng cfg now).dashboards,
      ∃ prj ∈ (build_mock_data_rng rng cfg now).projects, db.project_id = prj.id
        ∧ (db.owner_user_id = none
           ∨ ∃ u ∈ (build_mock_data_rng rng cfg now).users,
              db.owner_user_id = some u.id ∧ u.org_id = prj.org_id) :=
    gen_dashboards_mem _ _ _ _ _
  have halert : ∀ a ∈ (build_mock_data_rng rng cfg now).alerts,
      ∃ prj ∈ (build_mock_data_rng rng cfg now).projects, a.project_id = prj.id
        ∧ (a.metric_id = none
           ∨ ∃ m ∈ (build_mock_data_rng rng cfg now).metrics,
              a.metric_id = some m.id ∧ m.project_id = prj.id) :=
    gen_alerts_mem _ _ _ _ _ _
  refine ⟨?_, ?_, ?_⟩
  · intro w hw mid hmid m hm hmeq db hdb hdbeq
    obtain ⟨db0, hdb0, hdid, hmo⟩ := hwid w hw
    rcases hmo with hnone | ⟨m0, hm0, hmeq0, hproj⟩
    · rw [hmid] at hnone; exact absurd hnone (by simp)
    · rw [hmid] at hmeq0
      have hmm : m = m0 := by
        apply List.inj_on_of_nodup_map hndm hm hm0
        rw [hmeq, Option.some.inj hmeq0]
      have hdd : db = db0 := by
        apply List.inj_on_of_nodup_map hndd hdb hdb0
        rw [hdbeq, hdid]
      rw [hmm, hdd]
      exact hproj
  · intro db hdb uid huid u hu hueq p hp hpeq
    obtain ⟨prj0, hprj0, hpid, howner⟩ := hdash db hdb
    rcases howner with hnone | ⟨u0, hu0, heq, horg⟩
    · rw [huid] at hnone; exact absurd hnone (by simp)
    · rw [huid] at heq
      have huu : u = u0 := by
        apply List.inj_on_of_nodup_map hndu hu hu0
        rw [hueq, Option.some.inj heq]
      have hpp : p = prj0 := by
        apply List.inj_on_of_nodup_map hndp hp hprj0
        rw [hpeq, hpid]
      rw [huu, hpp]
      exact horg
  · intro a ha mid hmid m hm hmeq
    obtain ⟨prj0, hprj0, hpid, hmo⟩ := halert a ha
    rcases hmo with hnone | ⟨m0, hm0, hmeq0, hproj⟩
    · rw [hmid] at hnone; exact absurd hnone (by simp)
    · rw [hmid] at hmeq0
      have hmm : m = m0 := by
        apply List.inj_on_of_nodup_map hndm hm hm0
        rw [hmeq, Option.some.inj hmeq0]
      rw [hmm, hproj, hpid]

theorem getD_of_lt (l : List α) (i : Nat) (dflt : α) (h : i < l.length) :
    l.getD i dflt = l.get ⟨i, h⟩ := by
  rw [List.getD_eq_getElem?_getD, List.getElem?_eq_getElem h]
  rfl

/-! ## Concrete instances used by witnesses and counterexamples -/

/-- The default CLI configuration (orgs 2, users-per-org 3, ...). -/
def exConfig : Config := ⟨2, 3, 2, 1, 2, 2, 5, 1, 1, 1, 2, 2, 3, 10⟩

def exNow : Int := 1760000000000000

def zeroConfig : Config := ⟨0, 0, 0, 0, 0, 0, 0, 0, 0, 0, 0, 0, 0, 0⟩

def negConfig : Config := ⟨-1, 0, 0, 0, 0, 0, 0, 0, 0, 0, 0, 0, 0, 0⟩

def audConfig : Config := ⟨0, 0, 0, 0, 0, 0, 0, 0, 0, 0, 0, 0, 0, 1⟩

/-- A stream that always yields 0: `random.choice` then always picks the first
element, which exhausts the permission retry budget as soon as one project has
already been chosen. -/
def constRng : Rng := ⟨fun _ => 0, 0⟩

def dupConfig : Config := ⟨1, 1, 2, 0, 0, 0, 0, 0, 0, 0, 0, 2, 0, 0⟩

/-! ## The claims -/

/-- C1 (counterexample): as stated, determinism fails — `build_mock_data`
reads the wall clock (`now_utc()`), so two invocations with the same seed and
configuration at different instants differ: with one audit log requested, the
`at` timestamp tracks the clock. -/
theorem claim_C1_counterexample :
    ¬ ∀ (seed : Nat) (cfg : Config) (t1 t2 : Int),
        build_mock_data seed cfg t1 = build_mock_data seed cfg t2 := by
  intro h
  exact absurd (h 0 audConfig 0 1000000) (by decide)

/-- C1 (amended): with the same seed and configuration, two invocations agree
on everything except the values of the timestamp-derived fields
(`metric_samples.date`, `alerts.last_fired_at`, `incidents.opened_at` /
`resolved_at`, `eval_runs.created_at`, `audit_logs.at`); erasing exactly those
values makes the outputs byte-identical regardless of the invocation instant.
Full byte-identity holds when the wall-clock reading also coincides. -/
theorem claim_C1_determinism (seed : Nat) (cfg : Config) (t1 t2 : Int) :
    stripTimes (build_mock_data seed cfg t1) = stripTimes (build_mock_data seed cfg t2) :=
  build_strip (seedRng seed) cfg t1 t2

/-- C2 (counterexample): a negative cardinality parameter does not abort the
run — `range(n)` is empty for negative `n`, so `orgs_count = -1` yields the
very same (successful) output as `orgs_count = 0`: the negative value is
silently clamped. -/
theorem claim_C2_counterexample :
    (build_mock_data 0 negConfig 0).orgs = []
    ∧ build_mock_data 0 negConfig 0 = build_mock_data 0 zeroConfig 0 := by
  exact ⟨by decide, by decide⟩

/-- C2 (amended): every negative cardinality parameter is treated exactly as
zero: the run completes normally and produces the same dataset as the
configuration clamped at zero; no error is raised and nothing is aborted. -/
theorem claim_C2_negative_counts (seed : Nat) (cfg : Config) (now : Int) :
    build_mock_data seed cfg now = build_mock_data seed (clampConfig cfg) now :=
  (build_clamp (seedRng seed) cfg now).symm

/-- C3: referential integrity — every foreign-key field of every generated
record either holds the id of an existing record of the referenced collection
or the explicit absent value `none`; in particular audit logs (`org_id`,
`actor_user_id`, `target_id`) and widgets (`metric_id`). -/
theorem claim_C3_referential_integrity (seed : Nat) (cfg : Config) (now : Int) :
    ReferentialIntegrity (build_mock_data seed cfg now) :=
  build_refint (seedRng seed) cfg now

/-- C4: scoped consistency — a widget's metric belongs to the project of the
widget's dashboard; a dashboard's owner belongs to the org of the dashboard's
project; an alert's metric belongs to the alert's project. -/
theorem claim_C4_scoped_consistency (seed : Nat) (cfg : Config) (now : Int) :
    ScopedConsistency (build_mock_data seed cfg now) :=
  build_scoped (seedRng seed) cfg now

/-- C5: `IdFactory.next p` yields `p_1` on the first call, increments the
per-p counter by exactly one per call leaving other counters unchanged, and
consequently no two entities of a generated dataset share an identifier. -/
theorem claim_C5_identifier_uniqueness :
    (∀ p : String, (IdFactory.new.next p).1 = mkId p 1)
    ∧ (∀ (idf : IdFactory) (p : String),
        (idf.next p).1 = mkId p (idf.counters p + 1)
        ∧ (idf.next p).2.counters p = idf.counters p + 1
        ∧ ∀ q, q ≠ p → (idf.next p).2.counters q = idf.counters q)
    ∧ ∀ (seed : Nat) (cfg : Config) (now : Int),
        (allIds (build_mock_data seed cfg now)).Nodup := by
  refine ⟨fun p => rfl,
    fun idf p => ⟨rfl, IdFactory.next_counters_self idf p, ?_⟩,
    fun seed cfg now => build_allIds_nodup (seedRng seed) cfg now⟩
  intro q hq
  simp [IdFactory.next, hq]

/-- C5 witness: concrete instance of the factory laws (`q ≠ p` discharged at
`q := "usr"`, `p := "org"`). -/
theorem claim_C5_witness :
    (IdFactory.new.next "org").1 = mkId "org" 1
    ∧ (IdFactory.new.next "org").2.counters "usr" = IdFactory.new.counters "usr" :=
  ⟨claim_C5_identifier_uniqueness.1 "org",
    (claim_C5_identifier_uniqueness.2.1 IdFactory.new "org").2.2 "usr" (by decide)⟩

/-- Every permission emitted for a user carries that user's id. -/
theorem genPermsForUser_user (projects : List Project) (ppu : Int) (u : User) (rng : Rng) :
    ∀ pm ∈ (genPermsForUser projects ppu u rng).1, pm.user_id = u.id := by
  intro pm hpm
  simp only [genPermsForUser] at hpm
  exact mem_iterGenIdx (fun pm' => pm'.user_id = u.id)
    (genPermStep_user u.id (projectsByOrg projects u.org_id)) _ 0 ([], rng) pm hpm

/-- No retry-budget exhaustion for any user of the run, at the states the
permission generator actually threads through the user list. -/
def permCleanAllGo (projects : List Project) (ppu : Int) : List User → Rng → Bool
  | [], _ => true
  | u :: us, rng =>
    permCleanUser projects ppu u rng
      && permCleanAllGo projects ppu us (genPermsForUser projects ppu u rng).2

theorem gen_permissions_clean (projects : List Project) (ppu : Int) :
    ∀ (users : List User) (rng : Rng),
      (users.map User.id).Nodup →
      permCleanAllGo projects ppu users rng = true →
      ∀ u ∈ users,
        (((fanOut (genPermsForUser projects ppu) users rng).1.filter
          fun pm => pm.user_id == u.id).map
          fun pm => (pm.user_id, pm.project_id)).Nodup := by
  intro users
  induction users with
  | nil => intro rng _ _ u hu; simp at hu
  | cons v vs ih =>
    intro rng hnd hclean u hu
    simp only [List.map_cons, List.nodup_cons] at hnd
    obtain ⟨hvnotin, hndvs⟩ := hnd
    simp only [permCleanAllGo, Bool.and_eq_true] at hclean
    obtain ⟨hcv, hcvs⟩ := hclean
    simp only [fanOut, List.filter_append]
    rcases List.mem_cons.mp hu with rfl | hu'
    · have hrest : (fanOut (genPermsForUser projects ppu) vs
          (genPermsForUser projects ppu u rng).2).1.filter
          (fun pm => pm.user_id == u.id) = [] := by
        rw [List.filter_eq_nil_iff]
        intro pm hpm
        have hin : pm.user_id ∈ vs.map User.id :=
          mem_fanOut (fun pm' => pm'.user_id ∈ vs.map User.id)
            (fun b hb s pm' hpm' => by
              show pm'.user_id ∈ vs.map User.id
              rw [genPermsForUser_user projects ppu b s pm' hpm']
              exact List.mem_map_of_mem User.id hb) _ pm hpm
        simp only [beq_iff_eq]
        intro heq
        rw [heq] at hin
        exact hvnotin hin
      have hself : (genPermsForUser projects ppu u rng).1.filter
          (fun pm => pm.user_id == u.id) = (genPermsForUser projects ppu u rng).1 := by
        rw [List.filter_eq_self]
        intro pm hpm
        simp [genPermsForUser_user projects ppu u rng pm hpm]
      rw [hrest, hself, List.append_nil]
      exact pairs_nodup_of_const_user _ u.id (genPermsForUser_user projects ppu u rng)
        (genPermsForUser_clean_nodup projects ppu u rng hcv)
    · have hfirst : (genPermsForUser projects ppu v rng).1.filter
          (fun pm => pm.user_id == u.id) = [] := by
        rw [List.filter_eq_nil_iff]
        intro pm hpm
        have hv := genPermsForUser_user projects ppu v rng pm hpm
        simp only [beq_iff_eq, hv]
        intro heq
        exact hvnotin (heq ▸ List.mem_map_of_mem User.id hu')
      rw [hfirst, List.nil_append]
      exact ih _ hndvs hcvs u hu'

/-- C6: every generated incident has status "resolved" exactly when its
`resolved_at` is set, status "open" exactly when it is absent, and a set
`resolved_at` is strictly after `opened_at` even after both are truncated to
whole seconds. -/
theorem claim_C6_incident_consistency (seed : Nat) (cfg : Config) (now : Int) :
    ∀ inc ∈ (build_mock_data seed cfg now).incidents,
      (inc.status = "resolved" ↔ inc.resolved_at ≠ none)
      ∧ (inc.status = "open" ↔ inc.resolved_at = none)
      ∧ ∀ r, inc.resolved_at = some r → inc.opened_at < r := by
  have h : ∀ inc ∈ (build_mock_data seed cfg now).incidents,
      (∃ al ∈ (build_mock_data seed cfg now).alerts, inc.alert_id = al.id)
      ∧ ((inc.status = "resolved"
          ∧ ∃ r, inc.resolved_at = some r ∧ inc.opened_at < r)
        ∨ (inc.status = "open" ∧ inc.resolved_at = none)) :=
    gen_incidents_mem _ _ _ _ _
  intro inc hinc
  obtain ⟨-, h2⟩ := h inc hinc
  rcases h2 with ⟨hs, r, hr, hlt⟩ | ⟨hs, hr⟩
  · refine ⟨⟨fun _ => by rw [hr]; simp, fun _ => hs⟩,
      ⟨fun ho => absurd (hs ▸ ho) (by decide), fun hn => by rw [hr] at hn; cases hn⟩,
      ?_⟩
    intro r' hr'
    rw [hr] at hr'
    rw [← Option.some.inj hr']
    exact hlt
  · refine ⟨⟨fun hres => absurd (hs ▸ hres) (by decide), fun hne => absurd hr hne⟩,
      ⟨fun _ => hr, fun _ => hs⟩, ?_⟩
    intro r' hr'
    rw [hr] at hr'
    cases hr'

def exInc : Incident :=
  (build_mock_data 42 exConfig exNow).incidents.getD 0 ⟨"", "", "", 0, none⟩

set_option maxRecDepth 10000 in
/-- C6 witness: the status/resolved_at equivalence at the first incident of a
concrete run. -/
theorem claim_C6_witness :
    exInc.status = "resolved" ↔ exInc.resolved_at ≠ none :=
  (claim_C6_incident_consistency 42 exConfig exNow exInc (by decide)).1

/-- C7 (counterexample): as stated, pair uniqueness fails — when the random
stream keeps returning the already-chosen project (here: a constant stream and
two projects for one user asking two bindings), the 10-attempt retry budget is
exhausted and the duplicate `(user_id, project_id)` pair is accepted. -/
theorem claim_C7_counterexample :
    ¬ ∀ u ∈ (build_mock_data_rng constRng dupConfig 0).users,
        (((build_mock_data_rng constRng dupConfig 0).permissions.filter
          fun pm => pm.user_id == u.id).map
          fun pm => (pm.user_id, pm.project_id)).Nodup := by
  decide

/-- C7 (amended): a user's permission records never repeat a
`(user_id, project_id)` pair provided the 10-attempt retry budget was not
exhausted while generating that user's bindings (`permCleanAllGo`); when the
budget is exhausted the duplicate is accepted by design.  Moreover, in every
generated dataset the records bearing a user's id are exactly one contiguous
per-user chunk of the permission generator. -/
theorem claim_C7_permission_pairs :
    (∀ (projects : List Project) (users : List User) (ppu : Int) (rng : Rng),
        (users.map User.id).Nodup →
        permCleanAllGo projects ppu users rng = true →
        ∀ u ∈ users,
          (((gen_permissions projects users ppu rng).1.filter
            fun pm => pm.user_id == u.id).map
            fun pm => (pm.user_id, pm.project_id)).Nodup)
    ∧ ∀ (rng0 : Rng) (cfg : Config) (now : Int),
        ∀ u ∈ (build_mock_data_rng rng0 cfg now).users,
          ∃ s',
            (build_mock_data_rng rng0 cfg now).permissions.filter
                (fun pm => pm.user_id == u.id) =
              (genPermsForUser (build_mock_data_rng rng0 cfg now).projects
                cfg.permissions_per_user u s').1 := by
  constructor
  · intro projects users ppu rng hnd hclean u hu
    exact gen_permissions_clean projects ppu users rng hnd hclean u hu
  · intro rng0 cfg now
    have hnd : IdsBlock "usr" ((build_mock_data_rng rng0 cfg now).users.map User.id) :=
      gen_users_ids _ _ _ _
    exact gen_permissions_user_chunk _ _ _ _ hnd.nodup

def exUsers : List User := (build_mock_data 42 exConfig exNow).users

def exProjects : List Project := (build_mock_data 42 exConfig exNow).projects

def exUser : User := exUsers.getD 0 ⟨"", "", "", "", "", false⟩

set_option maxRecDepth 10000 in
/-- C7 witness: a clean concrete run in which the first user's pairs are
pairwise distinct. -/
theorem claim_C7_witness :
    (((gen_permissions exProjects exUsers 2 (seedRng 1000)).1.filter
      fun pm => pm.user_id == exUser.id).map
      fun pm => (pm.user_id, pm.project_id)).Nodup :=
  claim_C7_permission_pairs.1 exProjects exUsers 2 (seedRng 1000)
    (by decide) (by decide) exUser (by decide)

/-- C8: with `users_per_org = k ≥ 1`, the Users collection has exactly
`orgs_count * k` records, of which exactly `orgs_count` have role "admin", and
for each org the first user generated for it (the head of the org's chunk) is
the admin. -/
theorem claim_C8_user_cardinality (seed : Nat) (cfg : Config) (now : Int)
    (hk : 1 ≤ cfg.users_per_org) :
    (build_mock_data seed cfg now).users.length =
      cfg.orgs_count.toNat * cfg.users_per_org.toNat
    ∧ (((build_mock_data seed cfg now).users.filter
        fun u => u.role == "admin").length = cfg.orgs_count.toNat)
    ∧ ∀ o ∈ (build_mock_data seed cfg now).orgs,
        ∃ u, ((build_mock_data seed cfg now).users.filter
            fun u' => u'.org_id == o.id).head? = some u ∧ u.role = "admin" := by
  have hlen : (build_mock_data seed cfg now).users.length =
      (build_mock_data seed cfg now).orgs.length * cfg.users_per_org.toNat :=
    gen_users_length _ _ _ _
  have holen : (build_mock_data seed cfg now).orgs.length = cfg.orgs_count.toNat :=
    gen_orgs_length _ _ _
  have hadm : (((build_mock_data seed cfg now).users.filter
      fun u => u.role == "admin").length = (build_mock_data seed cfg now).orgs.length) :=
    gen_users_admin_count _ _ _ _ (by omega)
  have hband : IdsBlock "org" ((build_mock_data seed cfg now).orgs.map Org.id) :=
    gen_orgs_ids _ _ _
  have hchunk : ∀ o ∈ (build_mock_data seed cfg now).orgs, ∃ pool s',
      (build_mock_data seed cfg now).users.filter (fun u => u.org_id == o.id) =
        (iterGenIdx (genUserStep pool o.id (slugify o.name ++ ".com"))
          0 cfg.users_per_org.toNat s').1 :=
    gen_users_org_chunk _ _ _ _ hband.nodup
  refine ⟨by rw [hlen, holen], by rw [hadm, holen], ?_⟩
  intro o ho
  obtain ⟨pool, s', hcs⟩ := hchunk o ho
  obtain ⟨k', hk'⟩ : ∃ k', cfg.users_per_org.toNat = k' + 1 :=
    ⟨cfg.users_per_org.toNat - 1, by omega⟩
  refine ⟨(genUserStep pool o.id (slugify o.name ++ ".com") 0 s').1, ?_,
    genUserStep_role_zero _ _ _ _⟩
  rw [hcs, hk']
  rfl

/-- C8 witness: the dataset of a concrete run with 2 orgs and 3 users per org
has exactly 6 users. -/
theorem claim_C8_witness :
    (build_mock_data 42 exConfig exNow).users.length =
      exConfig.orgs_count.toNat * exConfig.users_per_org.toNat :=
  (claim_C8_user_cardinality 42 exConfig exNow (by decide)).1

/-- C9: with `samples_per_metric = k ≥ 1`, each metric's samples (in
generation order) number exactly `k`, consecutive dates differ by exactly one
day (ascending), and the last sample's date is the current UTC date. -/
theorem claim_C9_sample_dates (seed : Nat) (cfg : Config) (now : Int)
    (hk : 1 ≤ cfg.samples_per_metric) :
    ∀ m ∈ (build_mock_data seed cfg now).metrics,
      ((build_mock_data seed cfg now).metric_samples.filter
        fun smp => smp.metric_id == m.id).length = cfg.samples_per_metric.toNat
      ∧ (∀ i, i + 1 < ((build_mock_data seed cfg now).metric_samples.filter
            fun smp => smp.metric_id == m.id).length →
          (((build_mock_data seed cfg now).metric_samples.filter
            fun smp => smp.metric_id == m.id).getD (i + 1) ⟨"", 0, 0⟩).date =
          (((build_mock_data seed cfg now).metric_samples.filter
            fun smp => smp.metric_id == m.id).getD i ⟨"", 0, 0⟩).date + 1)
      ∧ ((build_mock_data seed cfg now).metric_samples.filter
          fun smp => smp.metric_id == m.id).getLast?.map MetricSample.date =
          some (dateOf now) := by
  have hnd : IdsBlock "m" ((build_mock_data seed cfg now).metrics.map Metric.id) :=
    gen_metrics_ids _ _ _ _
  have hchunk : ∀ m ∈ (build_mock_data seed cfg now).metrics, ∃ s',
      (build_mock_data seed cfg now).metric_samples.filter
        (fun smp => smp.metric_id == m.id) =
        (iterGenIdx (genSampleStep m.id (dateOf now) cfg.samples_per_metric.toNat)
          0 cfg.samples_per_metric.toNat s').1 :=
    gen_metric_samples_chunk _ _ _ _ hnd.nodup
  intro m hm
  obtain ⟨s', hcs⟩ := hchunk m hm
  have hlen : ((build_mock_data seed cfg now).metric_samples.filter
      fun smp => smp.metric_id == m.id).length = cfg.samples_per_metric.toNat := by
    rw [hcs]
    exact length_iterGenIdx _ _ 0 s'
  have hk1 : 1 ≤ cfg.samples_per_metric.toNat := by omega
  refine ⟨hlen, ?_, ?_⟩
  · intro i hi
    rw [hlen] at hi
    have h1 : i < ((iterGenIdx
        (genSampleStep m.id (dateOf now) cfg.samples_per_metric.toNat)
        0 cfg.samples_per_metric.toNat s').1).length := by
      rw [length_iterGenIdx]; omega
    have h2 : i + 1 < ((iterGenIdx
        (genSampleStep m.id (dateOf now) cfg.samples_per_metric.toNat)
        0 cfg.samples_per_metric.toNat s').1).length := by
      rw [length_iterGenIdx]; omega
    rw [hcs, getD_of_lt _ _ _ h2, getD_of_lt _ _ _ h1]
    obtain ⟨sa, hsa⟩ := get_iterGenIdx
      (genSampleStep m.id (dateOf now) cfg.samples_per_metric.toNat)
      cfg.samples_per_metric.toNat 0 s' i h1
    obtain ⟨sb, hsb⟩ := get_iterGenIdx
      (genSampleStep m.id (dateOf now) cfg.samples_per_metric.toNat)
      cfg.samples_per_metric.toNat 0 s' (i + 1) h2
    rw [hsa, hsb, genSampleStep_date, genSampleStep_date]
    omega
  · have hpos : 0 < ((iterGenIdx
        (genSampleStep m.id (dateOf now) cfg.samples_per_metric.toNat)
        0 cfg.samples_per_metric.toNat s').1).length := by
      rw [length_iterGenIdx]; omega
    have hidx : ((iterGenIdx
        (genSampleStep m.id (dateOf now) cfg.samples_per_metric.toNat)
        0 cfg.samples_per_metric.toNat s').1).length - 1 < ((iterGenIdx
        (genSampleStep m.id (dateOf now) cfg.samples_per_metric.toNat)
        0 cfg.samples_per_metric.toNat s').1).length := by omega
    obtain ⟨sa, hsa⟩ := get_iterGenIdx
      (genSampleStep m.id (dateOf now) cfg.samples_per_metric.toNat)
      cfg.samples_per_metric.toNat 0 s'
      ((iterGenIdx (genSampleStep m.id (dateOf now) cfg.samples_per_metric.toNat)
        0 cfg.samples_per_metric.toNat s').1.length - 1) hidx
    have hdate : (((iterGenIdx
        (genSampleStep m.id (dateOf now) cfg.samples_per_metric.toNat)
        0 cfg.samples_per_metric.toNat s').1).get ⟨((iterGenIdx
        (genSampleStep m.id (dateOf now) cfg.samples_per_metric.toNat)
        0 cfg.samples_per_metric.toNat s').1).length - 1, hidx⟩).date =
        dateOf now := by
      rw [hsa, genSampleStep_date, length_iterGenIdx]
      omega
    rw [hcs, List.getLast?_eq_getElem?, List.getElem?_eq_getElem hidx,
      Option.map_some', Option.some_inj]
    exact hdate

def exMetric : Metric :=
  (build_mock_data 42 exConfig exNow).metrics.getD 0 ⟨"", "", "", 0, ""⟩

set_option maxRecDepth 10000 in
/-- C9 witness: in a concrete run the final sample of the first metric falls
on the generation day. -/
theorem claim_C9_witness :
    ((build_mock_data 42 exConfig exNow).metric_samples.filter
      fun smp => smp.metric_id == exMetric.id).getLast?.map MetricSample.date =
      some (dateOf exNow) :=
  (claim_C9_sample_dates 42 exConfig exNow (by decide) exMetric (by decide)).2.2

/-- C10: every user receives exactly `min(permissions_per_user, number of
projects in the user's org)` permission records — fewer than requested when
the org has fewer projects, zero when it has none. -/
theorem claim_C10_permission_counts (seed : Nat) (cfg : Config) (now : Int) :
    ∀ u ∈ (build_mock_data seed cfg now).users,
      ((build_mock_data seed cfg now).permissions.filter
        fun pm => pm.user_id == u.id).length =
      (min cfg.permissions_per_user
        (((build_mock_data seed cfg now).projects.filter
          fun p => p.org_id == u.org_id).length : Int)).toNat := by
  have hnd : IdsBlock "usr" ((build_mock_data seed cfg now).users.map User.id) :=
    gen_users_ids _ _ _ _
  have hchunk : ∀ u ∈ (build_mock_data seed cfg now).users, ∃ s',
      (build_mock_data seed cfg now).permissions.filter (fun pm => pm.user_id == u.id) =
        (genPermsForUser (build_mock_data seed cfg now).projects
          cfg.permissions_per_user u s').1 :=
    gen_permissions_user_chunk _ _ _ _ hnd.nodup
  intro u hu
  obtain ⟨s', hcs⟩ := hchunk u hu
  rw [hcs, genPermsForUser_length]
  rfl

set_option maxRecDepth 10000 in
/-- C10 witness: the first user of a concrete run holds exactly
`min(permissions_per_user, projects of their org)` permissions. -/
theorem claim_C10_witness :
    ((build_mock_data 42 exConfig exNow).permissions.filter
      fun pm => pm.user_id == exUser.id).length =
    (min exConfig.permissions_per_user
      (((build_mock_data 42 exConfig exNow).projects.filter
        fun p => p.org_id == exUser.org_id).length : Int)).toNat :=
  claim_C10_permission_counts 42 exConfig exNow exUser (by decide)
